import Mathlib

/-!
Shallow embedding of `vllm/platforms/cpu.py` (the CPU platform plugin of the
vLLM inference runtime): capability matrix, configuration resolver and
topology discovery, together with theorems settling the frozen claims.

External collaborator types (`torch.dtype`, `CpuArchEnum`, `_Backend`,
`CompilationLevel`, the sub-config classes of `VllmConfig`) are not defined in
the given source file; they are embedded as plain inductive/structure types
carrying exactly the fields and variants the source file reads or writes.
-/

namespace VllmCpu

/-- The subset of `torch.dtype` values the CPU platform code mentions.
`torch.half` is the same dtype as `torch.float16`. -/
inductive TorchDtype where
  | bfloat16
  | float16
  | float32
deriving DecidableEq, Repr

/-- CPU architecture tags. Modelled from the spec: the architecture enum
(`CpuArchEnum` in `platforms/interface.py`, not part of the given source)
distinguishes POWERPC, ARM, X86 and other architectures. -/
inductive CpuArchEnum where
  | X86
  | ARM
  | POWERPC
  | RISCV
  | UNKNOWN
deriving DecidableEq, Repr

/-- Attention backend request tags. Modelled from the spec: the `_Backend`
enum (`platforms/interface.py`, not part of the given source) is an opaque
set of identifiers of which only `TORCH_SDPA` matters to this platform. -/
inductive AttnBackendTag where
  | TORCH_SDPA
  | FLASH_ATTN
  | XFORMERS
  | ROCM_FLASH
deriving DecidableEq, Repr

/-- Python's `str.startswith` test. -/
def strStartsWith (s pre : String) : Bool :=
  s.toList.take pre.length == pre.toList

/-- `CpuPlatform.supported_dtypes`: a pure function of the CPU architecture
(`self.get_cpu_architecture()`) and the OS platform string (`sys.platform`).
The Darwin-family OS is recognised by `sys.platform.startswith("darwin")`. -/
def supported_dtypes (arch : CpuArchEnum) (sysPlatform : String) :
    List TorchDtype :=
  if arch = CpuArchEnum.POWERPC then
    [TorchDtype.bfloat16, TorchDtype.float32]
  else if strStartsWith sysPlatform "darwin" ∧ arch = CpuArchEnum.ARM then
    [TorchDtype.float16, TorchDtype.float32]
  else
    [TorchDtype.bfloat16, TorchDtype.float16, TorchDtype.float32]

/-- Rejections raised by `CpuPlatform.get_attn_backend_cls`:
`NotImplementedError("MLA is not supported on CPU.")` and
`ValueError("CPU backend only supports V1.")`. -/
inductive AttnRejection where
  | mlaNotSupported
  | onlySupportsV1
deriving DecidableEq, Repr

/-- `CpuPlatform.get_attn_backend_cls`.  The `selected_backend` argument may
be falsy (`None`); a non-default truthy backend only triggers an
informational log, never an error.  The checks happen in source order:
`use_mla` first, then `use_v1`. -/
def get_attn_backend_cls (selected_backend : Option AttnBackendTag)
    (head_size : Nat) (dtype : TorchDtype) (kv_cache_dtype : Option String)
    (block_size : Nat) (use_v1 : Bool) (use_mla : Bool) :
    Except AttnRejection String :=
  if use_mla then
    Except.error AttnRejection.mlaNotSupported
  else if ¬ use_v1 then
    Except.error AttnRejection.onlySupportsV1
  else
    Except.ok "vllm.v1.attention.backends.cpu_attn.TorchSDPABackend"

/-- `GiB_bytes` from `vllm.utils`: the gibibyte byte count. -/
def GiB_bytes : Nat := 2 ^ 30

/-- `CpuPlatform.get_device_total_memory`: the KV-cache memory budget in
bytes, as a function of the optional `VLLM_CPU_KVCACHE_SPACE` environment
value (already parsed to an integer number of GiB by `vllm.envs`). -/
def get_device_total_memory (kvcache_space_env : Option Nat) : Nat :=
  match kvcache_space_env with
  | none => 4 * GiB_bytes
  | some v => v * GiB_bytes

/-- `LogicalCPUInfo`: one logical CPU as parsed from `lscpu` JSON output.
The sentinel `-1` marks a field whose text could not be parsed. -/
structure LogicalCPUInfo where
  id : Int := -1
  physical_core : Int := -1
  numa_node : Int := -1
deriving DecidableEq, Repr

/-- `LogicalCPUInfo._int`: parse a string to an integer with Python's
`int()` (an optionally-signed decimal numeral), yielding the sentinel
`-1` when parsing fails. -/
def LogicalCPUInfo.parseInt (value : String) : Int :=
  let isDigitChar := fun (c : Char) => 48 ≤ c.toNat && c.toNat ≤ 57
  let digitsVal := fun (ds : List Char) =>
    ds.foldl (fun n c => 10 * n + (c.toNat - 48)) (0 : Nat)
  let core := fun (ds : List Char) =>
    if !ds.isEmpty && ds.all isDigitChar then some (digitsVal ds) else none
  match value.toList with
  | '-' :: rest =>
    match core rest with
    | some n => -(n : Int)
    | none => -1
  | cs =>
    match core cs with
    | some n => (n : Int)
    | none => -1

/-- The body of `CpuPlatform.get_allowed_cpu_memory_node_list` after the
`lscpu` JSON has been decoded into `LogicalCPUInfo` records: filter out
records with a `-1` field, keep only CPUs whose id is in the process
affinity mask, and return the sorted deduplicated NUMA-node ids together
with the retained records. -/
def get_allowed_cpu_memory_node_list (parsed : List LogicalCPUInfo)
    (allowed_cpu_id_list : List Int) :
    List Int × List LogicalCPUInfo :=
  let valid := parsed.filter fun x =>
    ¬ (x.id = -1 ∨ x.physical_core = -1 ∨ x.numa_node = -1)
  let logical_cpu_list := valid.filter fun x => x.id ∈ allowed_cpu_id_list
  let allowed_numa_nodes :=
    ((logical_cpu_list.map fun x => x.numa_node).dedup).mergeSort
      fun a b => a ≤ b
  (allowed_numa_nodes, logical_cpu_list)

/-- `ModelConfig`: the fields of the model sub-config that
`check_and_update_config` reads or writes. -/
structure ModelConfig where
  dtype : TorchDtype
  use_mla : Bool
  disable_cascade_attn : Bool
deriving DecidableEq, Repr

/-- `CacheConfig`: the fields of the cache sub-config that
`check_and_update_config` reads or writes.  `cache_dtype` is the plain
string field of the Python config (`"auto"`, `"fp8_e4m3"`, `"fp8_e5m2"`,
...). -/
structure CacheConfig where
  block_size : Option Nat
  cache_dtype : String
  enable_prefix_caching : Bool
  cpu_kvcache_space_bytes : Option Nat
deriving DecidableEq, Repr

/-- `SchedulerConfig`: the fields the resolver reads or writes. -/
structure SchedulerConfig where
  chunked_prefill_enabled : Bool
  enable_chunked_prefill : Bool
  max_num_batched_tokens : Nat
  max_model_len : Nat
deriving DecidableEq, Repr

/-- `ParallelConfig`: the fields the resolver reads or writes. -/
structure ParallelConfig where
  world_size : Nat
  tensor_parallel_size : Nat
  distributed_executor_backend : Option String
  worker_cls : String
deriving DecidableEq, Repr

/-- `CompilationLevel` from `vllm.config`. Modelled from the spec: the
compilation-level enum (not part of the given source) has a
no-compilation level, two dynamo levels and the piecewise level. -/
inductive CompilationLevel where
  | NO_COMPILATION
  | DYNAMO_AS_IS
  | DYNAMO_ONCE
  | PIECEWISE
deriving DecidableEq, Repr

/-- `CompilationConfig`: the fields the resolver reads or writes.
`inductor_compile_config` is a Python dict; it is embedded as an
association list, updated by `dictUpdate`.  `use_inductor` is a plain
boolean field of the config, read (never written) by the resolver. -/
structure CompilationConfig where
  level : CompilationLevel
  backend : String
  custom_ops : List String
  cudagraph_capture_sizes : List Nat
  inductor_compile_config : List (String × Bool)
  use_inductor : Bool
deriving DecidableEq, Repr

/-- `DeviceConfig`: only its `device_type` string is read. -/
structure DeviceConfig where
  device_type : String
deriving DecidableEq, Repr

/-- `VllmConfig`: the aggregate runtime configuration.  `model_config` may
be `None` (the source guards every access with `is not None`);
`lora_config` only matters through presence or absence. -/
structure VllmConfig where
  model_config : Option ModelConfig
  cache_config : CacheConfig
  scheduler_config : SchedulerConfig
  parallel_config : ParallelConfig
  compilation_config : CompilationConfig
  lora_config : Option Unit
  device_config : DeviceConfig
deriving DecidableEq, Repr

/-- The process environment and host facts `check_and_update_config`
reads: presence of `intel_extension_for_pytorch`, the parsed
`VLLM_CPU_KVCACHE_SPACE` value, the raw `VLLM_CPU_CI_ENV` variable
(`os.environ.get("VLLM_CPU_CI_ENV", "0")`), the `LD_PRELOAD` string, and
the thread counts used only as values of exported variables. -/
structure Env where
  ipex_available : Bool
  kvcache_space : Option Nat
  ci_env : Option String
  ld_preload : String
  max_threads : Nat
  num_threads : Nat
deriving DecidableEq, Repr

/-- The errors `check_and_update_config` can raise: the two
`RuntimeError`s and the failure of the `device_type == "cpu"` assert. -/
inductive ConfigError where
  | blockSizeRequiresIpex (block_size : Option Nat)
  | chunkedIncompatFp8
  | deviceTypeNotCpu
deriving DecidableEq, Repr

/-- One observable write performed by `check_and_update_config`: either a
mutation of a configuration field (named by its dotted path) or a write
of a process environment variable. -/
inductive Event where
  | config (field : String)
  | env (var : String)
deriving DecidableEq, Repr

/-- `True` exactly on environment-variable write events. -/
def Event.isEnv : Event → Bool
  | Event.config _ => false
  | Event.env _ => true

/-- Python `dict.update`: the resulting association list maps each key of
`kvs` to its `kvs` value and every other key to its `m` value. -/
def dictUpdate (m kvs : List (String × Bool)) : List (String × Bool) :=
  (m.filter fun p => ¬ (kvs.any fun q => q.1 = p.1)) ++ kvs

/-- Sequencing of resolution steps: propagate the first error, concatenate
the event trails. -/
def stepBind (r : Except ConfigError (VllmConfig × List Event))
    (f : VllmConfig → Except ConfigError (VllmConfig × List Event)) :
    Except ConfigError (VllmConfig × List Event) :=
  match r with
  | Except.error e => Except.error e
  | Except.ok (c, evs) =>
    match f c with
    | Except.error e => Except.error e
    | Except.ok (c', evs') => Except.ok (c', evs ++ evs')

/-- Step 1 (`model_config.disable_cascade_attn = True`). -/
def stepCascade (c : VllmConfig) :
    Except ConfigError (VllmConfig × List Event) :=
  match c.model_config with
  | none => Except.ok (c, [])
  | some m =>
    Except.ok ({c with model_config := some {m with disable_cascade_attn := true}},
      [Event.config "model_config.disable_cascade_attn"])

/-- Step 2: default the cache block size (128 with the
`intel_extension_for_pytorch` extension, else 16) and reject a non-16
explicit block size when the extension is absent. -/
def stepBlockSize (env : Env) (c : VllmConfig) :
    Except ConfigError (VllmConfig × List Event) :=
  let p :=
    if c.cache_config.block_size = none then
      ({c with cache_config :=
          {c.cache_config with
            block_size := some (if env.ipex_available then 128 else 16)}},
       [Event.config "cache_config.block_size"])
    else (c, ([] : List Event))
  if ¬ env.ipex_available ∧ p.1.cache_config.block_size ≠ some 16 then
    Except.error (ConfigError.blockSizeRequiresIpex p.1.cache_config.block_size)
  else
    Except.ok p

/-- Step 3: reject chunked-prefill or prefix caching combined with a
non-`"auto"` cache dtype. -/
def stepChunkedFp8 (c : VllmConfig) :
    Except ConfigError (VllmConfig × List Event) :=
  if (c.scheduler_config.chunked_prefill_enabled ∨
        c.cache_config.enable_prefix_caching) ∧
      c.cache_config.cache_dtype ≠ "auto" then
    Except.error ConfigError.chunkedIncompatFp8
  else
    Except.ok (c, [])

/-- Step 4: remap the cache dtype `"fp8_e4m3"` to `"fp8_e5m2"`. -/
def stepFp8Remap (c : VllmConfig) :
    Except ConfigError (VllmConfig × List Event) :=
  if c.cache_config.cache_dtype = "fp8_e4m3" then
    Except.ok ({c with cache_config :=
        {c.cache_config with cache_dtype := "fp8_e5m2"}},
      [Event.config "cache_config.cache_dtype"])
  else
    Except.ok (c, [])

/-- Step 5: with a non-`"auto"` cache dtype, upgrade a `torch.half`
(= float16) model dtype to bfloat16. -/
def stepHalfToBf16 (c : VllmConfig) :
    Except ConfigError (VllmConfig × List Event) :=
  match c.model_config with
  | none => Except.ok (c, [])
  | some m =>
    if c.cache_config.cache_dtype ≠ "auto" ∧ m.dtype = TorchDtype.float16 then
      Except.ok ({c with model_config := some {m with dtype := TorchDtype.bfloat16}},
        [Event.config "model_config.dtype"])
    else
      Except.ok (c, [])

/-- Step 6: store the KV-cache byte budget on the cache config. -/
def stepKvBytes (env : Env) (c : VllmConfig) :
    Except ConfigError (VllmConfig × List Event) :=
  Except.ok ({c with cache_config :=
      {c.cache_config with
        cpu_kvcache_space_bytes := some (get_device_total_memory env.kvcache_space)}},
    [Event.config "cache_config.cpu_kvcache_space_bytes"])

/-- Steps 7-8: force the `"mp"` distributed executor backend in
multi-process runs, and bind an `"auto"` worker class to the CPU worker. -/
def stepParallel (c : VllmConfig) :
    Except ConfigError (VllmConfig × List Event) :=
  let p :=
    if c.parallel_config.world_size > 1 ∧
        c.parallel_config.distributed_executor_backend ≠ none ∧
        c.parallel_config.distributed_executor_backend ≠ some "mp" then
      ({c with parallel_config :=
          {c.parallel_config with distributed_executor_backend := some "mp"}},
       [Event.config "parallel_config.distributed_executor_backend"])
    else (c, ([] : List Event))
  if p.1.parallel_config.worker_cls = "auto" then
    Except.ok ({p.1 with parallel_config :=
        {p.1.parallel_config with
          worker_cls := "vllm.v1.worker.cpu_worker.CPUWorker"}},
      p.2 ++ [Event.config "parallel_config.worker_cls"])
  else
    Except.ok p

/-- Step 9: clear the cudagraph capture size list. -/
def stepCudagraph (c : VllmConfig) :
    Except ConfigError (VllmConfig × List Event) :=
  Except.ok ({c with compilation_config :=
      {c.compilation_config with cudagraph_capture_sizes := []}},
    [Event.config "compilation_config.cudagraph_capture_sizes"])

/-- The compiler backend chosen inside the piecewise branch:
`"eager"` when `VLLM_CPU_CI_ENV` is set to a non-`"0"` value, else
`"inductor"`. -/
def ciBackend (env : Env) : String :=
  if env.ci_env.getD "0" ≠ "0" then "eager" else "inductor"

/-- Step 10: the piecewise-compilation branch: downgrade the level to
`DYNAMO_ONCE`, pick the backend, update the inductor options, and when
the `use_inductor` flag is set restrict `custom_ops` to `["none"]`. -/
def stepCompilation (env : Env) (c : VllmConfig) :
    Except ConfigError (VllmConfig × List Event) :=
  if c.compilation_config.level = CompilationLevel.PIECEWISE then
    let cc := c.compilation_config
    let cc :=
      {cc with
        level := CompilationLevel.DYNAMO_ONCE,
        backend := ciBackend env,
        inductor_compile_config :=
          dictUpdate cc.inductor_compile_config
            [("dce", true), ("size_asserts", false), ("nan_asserts", false),
             ("epilogue_fusion", true)]}
    let evs := [Event.config "compilation_config.level",
      Event.config "compilation_config.backend",
      Event.config "compilation_config.inductor_compile_config"]
    if cc.use_inductor then
      Except.ok ({c with compilation_config := {cc with custom_ops := ["none"]}},
        evs ++ [Event.config "compilation_config.custom_ops"])
    else
      Except.ok ({c with compilation_config := cc}, evs)
  else
    Except.ok (c, [])

/-- Step 11: LoRA forces the no-compilation level. -/
def stepLora (c : VllmConfig) :
    Except ConfigError (VllmConfig × List Event) :=
  match c.lora_config with
  | none => Except.ok (c, [])
  | some _ =>
    Except.ok ({c with compilation_config :=
        {c.compilation_config with level := CompilationLevel.NO_COMPILATION}},
      [Event.config "compilation_config.level"])

/-- Step 12: `assert vllm_config.device_config.device_type == "cpu"`. -/
def stepAssertDevice (c : VllmConfig) :
    Except ConfigError (VllmConfig × List Event) :=
  if c.device_config.device_type = "cpu" then
    Except.ok (c, [])
  else
    Except.error ConfigError.deviceTypeNotCpu

/-- Python's substring containment test `needle in hay`. -/
def strContains (hay needle : String) : Bool :=
  (List.range (hay.length + 1)).any fun i =>
    (hay.toList.drop i).take needle.length == needle.toList

/-- Step 13: the environment-variable writes (names only; the written
values are derived from `env` and the config but mutate no config
field). The five `KMP_*` variables are written only when `libiomp5.so`
occurs in `LD_PRELOAD`. -/
def stepEnvWiring (env : Env) (c : VllmConfig) :
    Except ConfigError (VllmConfig × List Event) :=
  let kmp :=
    if strContains env.ld_preload "libiomp5.so" then
      [Event.env "KMP_BLOCKTIME", Event.env "KMP_TPAUSE",
       Event.env "KMP_FORKJOIN_BARRIER_PATTERN",
       Event.env "KMP_PLAIN_BARRIER_PATTERN",
       Event.env "KMP_REDUCTION_BARRIER_PATTERN"]
    else []
  Except.ok (c,
    [Event.env "VLLM_WORKER_MULTIPROC_METHOD",
     Event.env "NUMEXPR_MAX_THREADS",
     Event.env "OMP_NUM_THREADS",
     Event.env "TORCHINDUCTOR_COMPILE_THREADS"] ++ kmp ++
    [Event.env "LOCAL_WORLD_SIZE"])

/-- `DEFAULT_MAX_NUM_BATCHED_TOKENS` from `vllm.utils`. Modelled from the
spec: "a fixed platform default" for the batched-token budget (its exact
value does not affect any claim). -/
def DEFAULT_MAX_NUM_BATCHED_TOKENS : Nat := 8192

/-- Step 14: the MLA branch, run after the environment wiring: disable
chunked prefill and set the batched-token budget to
`max(max_model_len, DEFAULT_MAX_NUM_BATCHED_TOKENS)`. -/
def stepMla (c : VllmConfig) :
    Except ConfigError (VllmConfig × List Event) :=
  match c.model_config with
  | none => Except.ok (c, [])
  | some m =>
    if m.use_mla then
      Except.ok ({c with scheduler_config :=
          {c.scheduler_config with
            enable_chunked_prefill := false,
            chunked_prefill_enabled := false,
            max_num_batched_tokens :=
              max c.scheduler_config.max_model_len DEFAULT_MAX_NUM_BATCHED_TOKENS}},
        [Event.config "scheduler_config.enable_chunked_prefill",
         Event.config "scheduler_config.chunked_prefill_enabled",
         Event.config "scheduler_config.max_num_batched_tokens"])
    else
      Except.ok (c, [])

/-- `CpuPlatform.check_and_update_config`: the steps of the source body in
source order, returning the resolved config together with the ordered
trail of configuration-field and environment-variable writes. -/
def check_and_update_config (env : Env) (c : VllmConfig) :
    Except ConfigError (VllmConfig × List Event) :=
  let r := stepCascade c
  let r := stepBind r (stepBlockSize env)
  let r := stepBind r stepChunkedFp8
  let r := stepBind r stepFp8Remap
  let r := stepBind r stepHalfToBf16
  let r := stepBind r (stepKvBytes env)
  let r := stepBind r stepParallel
  let r := stepBind r stepCudagraph
  let r := stepBind r (stepCompilation env)
  let r := stepBind r stepLora
  let r := stepBind r stepAssertDevice
  let r := stepBind r (stepEnvWiring env)
  stepBind r stepMla

/-- The resolved configuration alone (dropping the event trail). -/
def resolveConfig (env : Env) (c : VllmConfig) :
    Except ConfigError VllmConfig :=
  (check_and_update_config env c).map Prod.fst

/-- The resolved configuration as an `Option` (used to state concrete
evaluations of the resolver). -/
def resolvedOption (env : Env) (c : VllmConfig) : Option VllmConfig :=
  match check_and_update_config env c with
  | Except.ok (c', _) => some c'
  | Except.error _ => none

/-- The event trail of a successful resolution as an `Option`. -/
def resolveEvents (env : Env) (c : VllmConfig) : Option (List Event) :=
  match check_and_update_config env c with
  | Except.ok (_, evs) => some evs
  | Except.error _ => none

/-- `true` when no configuration-field write occurs after an
environment-variable write in the trail. -/
def noConfigAfterEnv : List Event → Bool
  | [] => true
  | e :: rest => if e.isEnv then rest.all Event.isEnv else noConfigAfterEnv rest

instance {ε α : Type} [DecidableEq ε] [DecidableEq α] :
    DecidableEq (Except ε α) := fun a b =>
  match a, b with
  | Except.error e, Except.error f =>
    if h : e = f then isTrue (by rw [h])
    else isFalse (by intro hh; cases hh; exact h rfl)
  | Except.error _, Except.ok _ => isFalse (by intro hh; cases hh)
  | Except.ok _, Except.error _ => isFalse (by intro hh; cases hh)
  | Except.ok x, Except.ok y =>
    if h : x = y then isTrue (by rw [h])
    else isFalse (by intro hh; cases hh; exact h rfl)

/-- `true` exactly on configuration-field write events. -/
def Event.isConfig : Event → Bool
  | Event.config _ => true
  | Event.env _ => false

/-- `true` exactly on the `ok` outcome. -/
def isOkE {ε α : Type} : Except ε α → Bool
  | Except.ok _ => true
  | Except.error _ => false

theorem isOkE_exists {ε α : Type} {o : Except ε α} (h : isOkE o = true) :
    ∃ a, o = Except.ok a := by
  cases o with
  | ok a => exact ⟨a, rfl⟩
  | error e => simp [isOkE] at h

theorem stepBind_ok {r : Except ConfigError (VllmConfig × List Event)}
    {f : VllmConfig → Except ConfigError (VllmConfig × List Event)}
    {p : VllmConfig × List Event} (h : stepBind r f = Except.ok p) :
    ∃ c1 e1 e2, r = Except.ok (c1, e1) ∧ f c1 = Except.ok (p.1, e2) ∧
      p.2 = e1 ++ e2 := by
  obtain ⟨pc, pe⟩ := p
  unfold stepBind at h
  rcases hr : r with e | ⟨c1, e1⟩
  · rw [hr] at h; simp at h
  · rw [hr] at h
    simp only at h
    rcases hf : f c1 with e | ⟨c2, e2⟩ <;> rw [hf] at h <;> simp at h
    exact ⟨c1, e1, e2, rfl, by rw [hf, h.1], h.2.symm⟩

theorem stepBind_error {e : ConfigError}
    {f : VllmConfig → Except ConfigError (VllmConfig × List Event)} :
    stepBind (Except.error e) f = Except.error e := rfl

theorem stepBind_parts {r : Except ConfigError (VllmConfig × List Event)}
    {f : VllmConfig → Except ConfigError (VllmConfig × List Event)}
    {c1 c2 : VllmConfig} {e1 e2 : List Event}
    (hr : r = Except.ok (c1, e1)) (hf : f c1 = Except.ok (c2, e2)) :
    stepBind r f = Except.ok (c2, e1 ++ e2) := by
  unfold stepBind
  rw [hr]
  simp [hf]

theorem stepBind_parts_error {r : Except ConfigError (VllmConfig × List Event)}
    {f : VllmConfig → Except ConfigError (VllmConfig × List Event)}
    {c1 : VllmConfig} {e1 : List Event} {e : ConfigError}
    (hr : r = Except.ok (c1, e1)) (hf : f c1 = Except.error e) :
    stepBind r f = Except.error e := by
  unfold stepBind
  rw [hr]
  simp [hf]

/-! ### Per-step characterisation lemmas -/

theorem stepCascade_ok {c : VllmConfig} {p : VllmConfig × List Event}
    (h : stepCascade c = Except.ok p) :
    p.1.model_config =
      c.model_config.map (fun m => {m with disable_cascade_attn := true}) ∧
    p.1.model_config.map ModelConfig.use_mla =
      c.model_config.map ModelConfig.use_mla ∧
    p.1.model_config.map ModelConfig.dtype =
      c.model_config.map ModelConfig.dtype ∧
    p.1.cache_config = c.cache_config ∧
    p.1.scheduler_config = c.scheduler_config ∧
    p.1.parallel_config = c.parallel_config ∧
    p.1.compilation_config = c.compilation_config ∧
    p.1.lora_config = c.lora_config ∧
    p.1.device_config = c.device_config ∧
    p.2.all Event.isConfig = true := by
  unfold stepCascade at h
  match hm : c.model_config with
  | none =>
    rw [hm] at h
    simp only [Except.ok.injEq] at h
    subst h
    simp_all [Event.isConfig]
  | some m =>
    rw [hm] at h
    simp only [Except.ok.injEq] at h
    subst h
    simp_all [Event.isConfig]

theorem stepCascade_isOk (c : VllmConfig) : isOkE (stepCascade c) = true := by
  unfold stepCascade
  match hm : c.model_config with
  | none => simp [isOkE]
  | some m => simp [isOkE]

theorem stepBlockSize_ok {env : Env} {c : VllmConfig}
    {p : VllmConfig × List Event} (h : stepBlockSize env c = Except.ok p) :
    (c.cache_config.block_size = none →
      p.1.cache_config.block_size =
        some (if env.ipex_available then 128 else 16)) ∧
    (c.cache_config.block_size ≠ none →
      p.1.cache_config.block_size = c.cache_config.block_size) ∧
    p.1.cache_config.block_size ≠ none ∧
    (¬ env.ipex_available → p.1.cache_config.block_size = some 16) ∧
    p.1.cache_config.cache_dtype = c.cache_config.cache_dtype ∧
    p.1.cache_config.enable_prefix_caching =
      c.cache_config.enable_prefix_caching ∧
    p.1.cache_config.cpu_kvcache_space_bytes =
      c.cache_config.cpu_kvcache_space_bytes ∧
    p.1.model_config = c.model_config ∧
    p.1.scheduler_config = c.scheduler_config ∧
    p.1.parallel_config = c.parallel_config ∧
    p.1.compilation_config = c.compilation_config ∧
    p.1.lora_config = c.lora_config ∧
    p.1.device_config = c.device_config ∧
    p.2.all Event.isConfig = true := by
  unfold stepBlockSize at h
  rcases hbs : c.cache_config.block_size with _ | n
  · rw [hbs] at h
    by_cases hip : env.ipex_available = true
    · simp only [hip] at h
      simp at h
      subst h
      simp [hip, Event.isConfig]
    · simp only [Bool.not_eq_true] at hip
      simp [hip] at h
      subst h
      simp [hip, Event.isConfig]
  · rw [hbs] at h
    simp at h
    split at h
    · simp at h
    · rename_i hcond
      simp only [Except.ok.injEq] at h
      subst h
      have h16 : ¬ env.ipex_available = true →
          c.cache_config.block_size = some 16 := by
        intro hni
        by_contra hne
        exact hcond ⟨by simpa using hni, hne⟩
      exact ⟨by simp, fun _ => hbs, by simp [hbs], h16,
        rfl, rfl, rfl, rfl, rfl, rfl, rfl, rfl, rfl, by simp [Event.isConfig]⟩

theorem stepChunkedFp8_ok {c : VllmConfig} {p : VllmConfig × List Event}
    (h : stepChunkedFp8 c = Except.ok p) :
    p.1 = c ∧ p.2 = [] ∧
    ((c.scheduler_config.chunked_prefill_enabled = true ∨
        c.cache_config.enable_prefix_caching = true) →
      c.cache_config.cache_dtype = "auto") := by
  unfold stepChunkedFp8 at h
  split at h
  · simp at h
  · rename_i hcond
    simp only [Except.ok.injEq] at h
    subst h
    refine ⟨rfl, rfl, ?_⟩
    intro hor
    by_contra hne
    exact hcond ⟨by rcases hor with h1 | h1 <;> simp [h1], hne⟩

theorem stepFp8Remap_ok {c : VllmConfig} {p : VllmConfig × List Event}
    (h : stepFp8Remap c = Except.ok p) :
    p.1.cache_config.cache_dtype =
      (if c.cache_config.cache_dtype = "fp8_e4m3" then "fp8_e5m2"
       else c.cache_config.cache_dtype) ∧
    p.1.cache_config.cache_dtype ≠ "fp8_e4m3" ∧
    p.1.model_config = c.model_config ∧
    p.1.scheduler_config = c.scheduler_config ∧
    p.1.parallel_config = c.parallel_config ∧
    p.1.compilation_config = c.compilation_config ∧
    p.1.lora_config = c.lora_config ∧
    p.1.device_config = c.device_config ∧
    p.1.cache_config.block_size = c.cache_config.block_size ∧
    p.1.cache_config.enable_prefix_caching =
      c.cache_config.enable_prefix_caching ∧
    p.1.cache_config.cpu_kvcache_space_bytes =
      c.cache_config.cpu_kvcache_space_bytes ∧
    p.2.all Event.isConfig = true := by
  unfold stepFp8Remap at h
  split at h <;> simp only [Except.ok.injEq] at h <;> subst h <;>
    simp_all [Event.isConfig]

theorem stepFp8Remap_isOk (c : VllmConfig) : isOkE (stepFp8Remap c) = true := by
  unfold stepFp8Remap
  split <;> simp [isOkE]

theorem stepHalfToBf16_ok {c : VllmConfig} {p : VllmConfig × List Event}
    (h : stepHalfToBf16 c = Except.ok p) :
    (c.cache_config.cache_dtype ≠ "auto" →
      ∀ m, p.1.model_config = some m → m.dtype ≠ TorchDtype.float16) ∧
    p.1.model_config.map ModelConfig.use_mla =
      c.model_config.map ModelConfig.use_mla ∧
    (∀ m, p.1.model_config = some m → ∃ m0, c.model_config = some m0 ∧
      m.use_mla = m0.use_mla ∧ m.disable_cascade_attn = m0.disable_cascade_attn) ∧
    (p.1.model_config = none → c.model_config = none) ∧
    p.1.cache_config = c.cache_config ∧
    p.1.scheduler_config = c.scheduler_config ∧
    p.1.parallel_config = c.parallel_config ∧
    p.1.compilation_config = c.compilation_config ∧
    p.1.lora_config = c.lora_config ∧
    p.1.device_config = c.device_config ∧
    p.2.all Event.isConfig = true := by
  unfold stepHalfToBf16 at h
  rcases hm : c.model_config with _ | m
  · rw [hm] at h
    simp only [Except.ok.injEq] at h
    subst h
    simp_all [Event.isConfig]
  · rw [hm] at h
    simp only at h
    by_cases hcond : c.cache_config.cache_dtype ≠ "auto" ∧
        m.dtype = TorchDtype.float16
    · rw [if_pos hcond] at h
      simp only [Except.ok.injEq] at h
      subst h
      refine ⟨?_, by simp, ?_, by simp, rfl, rfl, rfl, rfl, rfl, rfl,
        by simp [Event.isConfig]⟩
      · intro _ m' hm'
        simp at hm'
        rw [← hm']
        simp
      · intro m' hm'
        simp at hm'
        exact ⟨m, rfl, by rw [← hm'], by rw [← hm']⟩
    · rw [if_neg hcond] at h
      simp only [Except.ok.injEq] at h
      subst h
      refine ⟨?_, by rw [hm], ?_, by simp [hm], rfl, rfl, rfl, rfl, rfl, rfl,
        by simp [Event.isConfig]⟩
      · intro hne m' hm'
        rw [hm] at hm'
        simp at hm'
        intro hdt
        exact hcond ⟨hne, by rw [hm']; exact hdt⟩
      · intro m' hm'
        rw [hm] at hm'
        simp at hm'
        exact ⟨m, rfl, by rw [← hm'], by rw [← hm']⟩

theorem stepHalfToBf16_isOk (c : VllmConfig) :
    isOkE (stepHalfToBf16 c) = true := by
  unfold stepHalfToBf16
  rcases hm : c.model_config with _ | m
  · simp [isOkE]
  · simp only
    split <;> simp [isOkE]

theorem stepKvBytes_ok {env : Env} {c : VllmConfig}
    {p : VllmConfig × List Event} (h : stepKvBytes env c = Except.ok p) :
    p.1.cache_config.cpu_kvcache_space_bytes =
      some (get_device_total_memory env.kvcache_space) ∧
    p.1.cache_config.cache_dtype = c.cache_config.cache_dtype ∧
    p.1.cache_config.block_size = c.cache_config.block_size ∧
    p.1.cache_config.enable_prefix_caching =
      c.cache_config.enable_prefix_caching ∧
    p.1.model_config = c.model_config ∧
    p.1.scheduler_config = c.scheduler_config ∧
    p.1.parallel_config = c.parallel_config ∧
    p.1.compilation_config = c.compilation_config ∧
    p.1.lora_config = c.lora_config ∧
    p.1.device_config = c.device_config ∧
    p.2.all Event.isConfig = true := by
  unfold stepKvBytes at h
  simp only [Except.ok.injEq] at h
  subst h
  simp_all [Event.isConfig]

theorem stepParallel_ok {c : VllmConfig} {p : VllmConfig × List Event}
    (h : stepParallel c = Except.ok p) :
    ¬ (p.1.parallel_config.world_size > 1 ∧
        p.1.parallel_config.distributed_executor_backend ≠ none ∧
        p.1.parallel_config.distributed_executor_backend ≠ some "mp") ∧
    p.1.parallel_config.worker_cls ≠ "auto" ∧
    p.1.parallel_config.world_size = c.parallel_config.world_size ∧
    p.1.parallel_config.tensor_parallel_size =
      c.parallel_config.tensor_parallel_size ∧
    p.1.model_config = c.model_config ∧
    p.1.cache_config = c.cache_config ∧
    p.1.scheduler_config = c.scheduler_config ∧
    p.1.compilation_config = c.compilation_config ∧
    p.1.lora_config = c.lora_config ∧
    p.1.device_config = c.device_config ∧
    p.2.all Event.isConfig = true := by
  unfold stepParallel at h
  split at h <;> rename_i hcond1
  case isTrue =>
    simp only at h
    by_cases hw : c.parallel_config.worker_cls = "auto"
    · simp only [hw, if_pos] at h
      simp only [Except.ok.injEq] at h
      subst h
      refine ⟨by simp, by simp, rfl, rfl, rfl, rfl, rfl, rfl, rfl, rfl,
        by simp [Event.isConfig]⟩
    · rw [if_neg hw] at h
      simp only [Except.ok.injEq] at h
      subst h
      exact ⟨by simp, hw, rfl, rfl, rfl, rfl, rfl, rfl, rfl, rfl,
        by simp [Event.isConfig]⟩
  case isFalse =>
    simp only at h
    by_cases hw : c.parallel_config.worker_cls = "auto"
    · simp only [hw, if_pos] at h
      simp only [Except.ok.injEq] at h
      subst h
      refine ⟨by simpa using hcond1, by simp, rfl, rfl, rfl, rfl, rfl, rfl,
        rfl, rfl, by simp [Event.isConfig]⟩
    · rw [if_neg hw] at h
      simp only [Except.ok.injEq] at h
      subst h
      exact ⟨by simpa using hcond1, hw, rfl, rfl, rfl, rfl, rfl, rfl, rfl,
        rfl, by simp [Event.isConfig]⟩

theorem stepParallel_isOk (c : VllmConfig) : isOkE (stepParallel c) = true := by
  unfold stepParallel
  by_cases h1 : (c.parallel_config.world_size > 1 ∧
      c.parallel_config.distributed_executor_backend ≠ none ∧
      c.parallel_config.distributed_executor_backend ≠ some "mp")
  · rw [if_pos h1]
    simp only
    split <;> simp [isOkE]
  · rw [if_neg h1]
    simp only
    split <;> simp [isOkE]

theorem stepCudagraph_ok {c : VllmConfig} {p : VllmConfig × List Event}
    (h : stepCudagraph c = Except.ok p) :
    p.1.compilation_config.cudagraph_capture_sizes = [] ∧
    p.1.compilation_config.level = c.compilation_config.level ∧
    p.1.compilation_config.backend = c.compilation_config.backend ∧
    p.1.compilation_config.custom_ops = c.compilation_config.custom_ops ∧
    p.1.compilation_config.inductor_compile_config =
      c.compilation_config.inductor_compile_config ∧
    p.1.compilation_config.use_inductor = c.compilation_config.use_inductor ∧
    p.1.model_config = c.model_config ∧
    p.1.cache_config = c.cache_config ∧
    p.1.scheduler_config = c.scheduler_config ∧
    p.1.parallel_config = c.parallel_config ∧
    p.1.lora_config = c.lora_config ∧
    p.1.device_config = c.device_config ∧
    p.2.all Event.isConfig = true := by
  unfold stepCudagraph at h
  simp only [Except.ok.injEq] at h
  subst h
  simp_all [Event.isConfig]

theorem stepCompilation_ok {env : Env} {c : VllmConfig}
    {p : VllmConfig × List Event} (h : stepCompilation env c = Except.ok p) :
    p.1.compilation_config.level =
      (if c.compilation_config.level = CompilationLevel.PIECEWISE then
        CompilationLevel.DYNAMO_ONCE else c.compilation_config.level) ∧
    p.1.compilation_config.level ≠ CompilationLevel.PIECEWISE ∧
    p.1.compilation_config.backend =
      (if c.compilation_config.level = CompilationLevel.PIECEWISE then
        ciBackend env else c.compilation_config.backend) ∧
    p.1.compilation_config.custom_ops =
      (if c.compilation_config.level = CompilationLevel.PIECEWISE ∧
          c.compilation_config.use_inductor = true then
        ["none"] else c.compilation_config.custom_ops) ∧
    p.1.compilation_config.cudagraph_capture_sizes =
      c.compilation_config.cudagraph_capture_sizes ∧
    p.1.compilation_config.use_inductor = c.compilation_config.use_inductor ∧
    p.1.model_config = c.model_config ∧
    p.1.cache_config = c.cache_config ∧
    p.1.scheduler_config = c.scheduler_config ∧
    p.1.parallel_config = c.parallel_config ∧
    p.1.lora_config = c.lora_config ∧
    p.1.device_config = c.device_config ∧
    p.2.all Event.isConfig = true := by
  unfold stepCompilation at h
  by_cases hl : c.compilation_config.level = CompilationLevel.PIECEWISE
  · rw [if_pos hl] at h
    simp only at h
    by_cases hu : c.compilation_config.use_inductor = true
    · rw [if_pos hu] at h
      simp only [Except.ok.injEq] at h
      subst h
      simp_all [Event.isConfig]
    · rw [if_neg hu] at h
      simp only [Except.ok.injEq] at h
      subst h
      simp_all [Event.isConfig]
  · rw [if_neg hl] at h
    simp only [Except.ok.injEq] at h
    subst h
    simp_all [Event.isConfig]

theorem stepCompilation_isOk (env : Env) (c : VllmConfig) :
    isOkE (stepCompilation env c) = true := by
  unfold stepCompilation
  by_cases hl : c.compilation_config.level = CompilationLevel.PIECEWISE
  · rw [if_pos hl]
    simp only
    split <;> simp [isOkE]
  · rw [if_neg hl]
    simp [isOkE]

theorem stepLora_ok {c : VllmConfig} {p : VllmConfig × List Event}
    (h : stepLora c = Except.ok p) :
    (c.lora_config = none → p.1 = c ∧ p.2 = []) ∧
    (c.lora_config ≠ none →
      p.1.compilation_config.level = CompilationLevel.NO_COMPILATION) ∧
    (p.1.compilation_config.level = CompilationLevel.PIECEWISE →
      c.compilation_config.level = CompilationLevel.PIECEWISE) ∧
    p.1.compilation_config.backend = c.compilation_config.backend ∧
    p.1.compilation_config.custom_ops = c.compilation_config.custom_ops ∧
    p.1.compilation_config.cudagraph_capture_sizes =
      c.compilation_config.cudagraph_capture_sizes ∧
    p.1.compilation_config.inductor_compile_config =
      c.compilation_config.inductor_compile_config ∧
    p.1.compilation_config.use_inductor = c.compilation_config.use_inductor ∧
    p.1.model_config = c.model_config ∧
    p.1.cache_config = c.cache_config ∧
    p.1.scheduler_config = c.scheduler_config ∧
    p.1.parallel_config = c.parallel_config ∧
    p.1.lora_config = c.lora_config ∧
    p.1.device_config = c.device_config ∧
    p.2.all Event.isConfig = true := by
  unfold stepLora at h
  rcases hl : c.lora_config with _ | u
  · rw [hl] at h
    simp only [Except.ok.injEq] at h
    subst h
    simp_all [Event.isConfig]
  · rw [hl] at h
    simp only [Except.ok.injEq] at h
    subst h
    refine ⟨by simp, fun _ => rfl, ?_, rfl, rfl, rfl, rfl, rfl, rfl, rfl,
      rfl, rfl, rfl, rfl, by simp [Event.isConfig]⟩
    intro hh
    cases hh

theorem stepLora_isOk (c : VllmConfig) : isOkE (stepLora c) = true := by
  unfold stepLora
  rcases hl : c.lora_config with _ | u <;> simp [isOkE]

theorem stepKvBytes_isOk (env : Env) (c : VllmConfig) :
    isOkE (stepKvBytes env c) = true := rfl

theorem stepCudagraph_isOk (c : VllmConfig) :
    isOkE (stepCudagraph c) = true := rfl

theorem stepAssertDevice_ok {c : VllmConfig} {p : VllmConfig × List Event}
    (h : stepAssertDevice c = Except.ok p) :
    p.1 = c ∧ p.2 = [] ∧ c.device_config.device_type = "cpu" := by
  unfold stepAssertDevice at h
  split at h
  · rename_i hd
    simp only [Except.ok.injEq] at h
    subst h
    exact ⟨rfl, rfl, hd⟩
  · simp at h

theorem stepEnvWiring_ok {env : Env} {c : VllmConfig}
    {p : VllmConfig × List Event} (h : stepEnvWiring env c = Except.ok p) :
    p.1 = c ∧ p.2.all Event.isEnv = true := by
  unfold stepEnvWiring at h
  simp only at h
  by_cases hk : strContains env.ld_preload "libiomp5.so" = true
  · rw [if_pos hk] at h
    simp only [Except.ok.injEq] at h
    subst h
    exact ⟨rfl, by simp [Event.isEnv]⟩
  · rw [if_neg hk] at h
    simp only [Except.ok.injEq] at h
    subst h
    exact ⟨rfl, by simp [Event.isEnv]⟩

theorem stepEnvWiring_isOk (env : Env) (c : VllmConfig) :
    isOkE (stepEnvWiring env c) = true := by
  unfold stepEnvWiring
  simp only
  split <;> simp [isOkE]

theorem stepMla_ok {c : VllmConfig} {p : VllmConfig × List Event}
    (h : stepMla c = Except.ok p) :
    p.1.model_config = c.model_config ∧
    p.1.cache_config = c.cache_config ∧
    p.1.parallel_config = c.parallel_config ∧
    p.1.compilation_config = c.compilation_config ∧
    p.1.lora_config = c.lora_config ∧
    p.1.device_config = c.device_config ∧
    p.1.scheduler_config.max_model_len = c.scheduler_config.max_model_len ∧
    (∀ m, c.model_config = some m → m.use_mla = true →
      p.1.scheduler_config.enable_chunked_prefill = false ∧
      p.1.scheduler_config.chunked_prefill_enabled = false ∧
      p.1.scheduler_config.max_num_batched_tokens =
        max c.scheduler_config.max_model_len DEFAULT_MAX_NUM_BATCHED_TOKENS ∧
      p.2.all Event.isConfig = true) ∧
    (∀ m, c.model_config = some m → m.use_mla = false →
      p.1 = c ∧ p.2 = []) ∧
    (c.model_config = none → p.1 = c ∧ p.2 = []) ∧
    (p.1.scheduler_config.chunked_prefill_enabled = true →
      c.scheduler_config.chunked_prefill_enabled = true) ∧
    (p.1.scheduler_config.enable_chunked_prefill = true →
      c.scheduler_config.enable_chunked_prefill = true) := by
  unfold stepMla at h
  rcases hm : c.model_config with _ | m
  · rw [hm] at h
    simp only [Except.ok.injEq] at h
    subst h
    simp_all
  · rw [hm] at h
    simp only at h
    by_cases hmla : m.use_mla = true
    · rw [if_pos hmla] at h
      simp only [Except.ok.injEq] at h
      subst h
      refine ⟨rfl, rfl, rfl, rfl, rfl, rfl, rfl, ?_, ?_, by simp, ?_, ?_⟩
      · intro m2 hm2 _
        exact ⟨rfl, rfl, rfl, by simp [Event.isConfig]⟩
      · intro m2 hm2 hf
        simp at hm2
        rw [← hm2] at hf
        rw [hmla] at hf
        cases hf
      · intro hh
        simp at hh
      · intro hh
        simp at hh
    · rw [if_neg hmla] at h
      simp only [Except.ok.injEq] at h
      subst h
      refine ⟨hm, rfl, rfl, rfl, rfl, rfl, rfl, ?_, fun _ _ _ => ⟨rfl, rfl⟩,
        fun _ => ⟨rfl, rfl⟩, fun hh => hh, fun hh => hh⟩
      intro m2 hm2 hc
      simp at hm2
      rw [← hm2] at hc
      exact absurd hc hmla

theorem stepMla_isOk (c : VllmConfig) : isOkE (stepMla c) = true := by
  unfold stepMla
  rcases hm : c.model_config with _ | m
  · simp [isOkE]
  · simp only
    split <;> simp [isOkE]

/-! ### Decomposition of a successful resolution into its steps -/

theorem resolve_chain {env : Env} {c : VllmConfig} {p : VllmConfig × List Event}
    (h : check_and_update_config env c = Except.ok p) :
    ∃ p1 p2 p3 p4 p5 p6 p7 p8 p9 p10 p11 p12 e14,
      stepCascade c = Except.ok p1 ∧
      stepBlockSize env p1.1 = Except.ok p2 ∧
      stepChunkedFp8 p2.1 = Except.ok p3 ∧
      stepFp8Remap p3.1 = Except.ok p4 ∧
      stepHalfToBf16 p4.1 = Except.ok p5 ∧
      stepKvBytes env p5.1 = Except.ok p6 ∧
      stepParallel p6.1 = Except.ok p7 ∧
      stepCudagraph p7.1 = Except.ok p8 ∧
      stepCompilation env p8.1 = Except.ok p9 ∧
      stepLora p9.1 = Except.ok p10 ∧
      stepAssertDevice p10.1 = Except.ok p11 ∧
      stepEnvWiring env p11.1 = Except.ok p12 ∧
      stepMla p12.1 = Except.ok (p.1, e14) ∧
      p.2 = (p1 : VllmConfig × List Event).2 ++ (p2.2 ++ (p3.2 ++ (p4.2 ++
        (p5.2 ++ (p6.2 ++ (p7.2 ++ (p8.2 ++ (p9.2 ++ (p10.2 ++
          (p11.2 ++ (p12.2 ++ e14))))))))))) := by
  unfold check_and_update_config at h
  obtain ⟨c12, E12, e14, h12r, h14, hE14⟩ := stepBind_ok h
  obtain ⟨c11, E11, e13, h11r, h13, hE13⟩ := stepBind_ok h12r
  obtain ⟨c10, E10, e12, h10r, h12, hE12⟩ := stepBind_ok h11r
  obtain ⟨c9, E9, e11, h9r, h11, hE11⟩ := stepBind_ok h10r
  obtain ⟨c8, E8, e10, h8r, h10, hE10⟩ := stepBind_ok h9r
  obtain ⟨c7, E7, e9, h7r, h9, hE9⟩ := stepBind_ok h8r
  obtain ⟨c6, E6, e8, h6r, h8, hE8⟩ := stepBind_ok h7r
  obtain ⟨c5, E5, e7, h5r, h7, hE7⟩ := stepBind_ok h6r
  obtain ⟨c4, E4, e6, h4r, h6, hE6⟩ := stepBind_ok h5r
  obtain ⟨c3, E3, e5, h3r, h5, hE5⟩ := stepBind_ok h4r
  obtain ⟨c2, E2, e4, h2r, h4, hE4⟩ := stepBind_ok h3r
  obtain ⟨c1, E1, e3, h1r, h3, hE3⟩ := stepBind_ok h2r
  refine ⟨(c1, E1), (c2, e3), (c3, e4), (c4, e5), (c5, e6), (c6, e7),
    (c7, e8), (c8, e9), (c9, e10), (c10, e11), (c11, e12), (c12, e13), e14,
    h1r, h3, h4, h5, h6, h7, h8, h9, h10, h11, h12, h13, h14, ?_⟩
  simp only at hE13 hE12 hE11 hE10 hE9 hE8 hE7 hE6 hE5 hE4 hE3
  subst hE13 hE12 hE11 hE10 hE9 hE8 hE7 hE6 hE5 hE4 hE3
  rw [hE14]
  simp [List.append_assoc]

/-- The state invariant established by a successful run of
`check_and_update_config`: each rule has been applied, so no rule would
change the configuration again. -/
structure Resolved (env : Env) (c : VllmConfig) : Prop where
  cascade : ∀ m, c.model_config = some m → m.disable_cascade_attn = true
  blockSome : c.cache_config.block_size ≠ none
  block16 : ¬ env.ipex_available = true → c.cache_config.block_size = some 16
  chunkedFp8 : (c.scheduler_config.chunked_prefill_enabled = true ∨
      c.cache_config.enable_prefix_caching = true) →
    c.cache_config.cache_dtype = "auto"
  noE4m3 : c.cache_config.cache_dtype ≠ "fp8_e4m3"
  noHalf : c.cache_config.cache_dtype ≠ "auto" →
    ∀ m, c.model_config = some m → m.dtype ≠ TorchDtype.float16
  kvBytes : c.cache_config.cpu_kvcache_space_bytes =
    some (get_device_total_memory env.kvcache_space)
  executor : ¬ (c.parallel_config.world_size > 1 ∧
      c.parallel_config.distributed_executor_backend ≠ none ∧
      c.parallel_config.distributed_executor_backend ≠ some "mp")
  worker : c.parallel_config.worker_cls ≠ "auto"
  cudagraph : c.compilation_config.cudagraph_capture_sizes = []
  notPiecewise : c.compilation_config.level ≠ CompilationLevel.PIECEWISE
  loraLevel : c.lora_config ≠ none →
    c.compilation_config.level = CompilationLevel.NO_COMPILATION
  device : c.device_config.device_type = "cpu"
  mla : ∀ m, c.model_config = some m → m.use_mla = true →
    c.scheduler_config.enable_chunked_prefill = false ∧
    c.scheduler_config.chunked_prefill_enabled = false ∧
    c.scheduler_config.max_num_batched_tokens =
      max c.scheduler_config.max_model_len DEFAULT_MAX_NUM_BATCHED_TOKENS

theorem resolve_ok_resolved {env : Env} {c : VllmConfig}
    {p : VllmConfig × List Event}
    (h : check_and_update_config env c = Except.ok p) : Resolved env p.1 := by
  obtain ⟨p1, p2, p3, p4, p5, p6, p7, p8, p9, p10, p11, p12, e14,
    h1, h2, h3, h4, h5, h6, h7, h8, h9, h10, h11, h12, h13, hE⟩ :=
    resolve_chain h
  obtain ⟨m1map, m1mla, m1dt, cc1, sc1, pc1, cp1, lo1, dv1, ev1⟩ :=
    stepCascade_ok h1
  obtain ⟨bs2n, bs2s, bs2ne, bs216, cd2, pf2, kv2, mc2, sc2, pc2, cp2, lo2,
    dv2, ev2⟩ := stepBlockSize_ok h2
  obtain ⟨eq3, ev3, cond3⟩ := stepChunkedFp8_ok h3
  obtain ⟨cd4, cd4ne, mc4, sc4, pc4, cp4, lo4, dv4, bs4, pf4, kv4, ev4⟩ :=
    stepFp8Remap_ok h4
  obtain ⟨half5, mla5, m5ex, m5none, cc5, sc5, pc5, cp5, lo5, dv5, ev5⟩ :=
    stepHalfToBf16_ok h5
  obtain ⟨kv6, cd6, bs6, pf6, mc6, sc6, pc6, cp6, lo6, dv6, ev6⟩ :=
    stepKvBytes_ok h6
  obtain ⟨ex7, wk7, ws7, tp7, mc7, cc7, sc7, cp7, lo7, dv7, ev7⟩ :=
    stepParallel_ok h7
  obtain ⟨cg8, lv8, bk8, co8, ic8, ui8, mc8, cc8, sc8, pc8, lo8, dv8, ev8⟩ :=
    stepCudagraph_ok h8
  obtain ⟨lv9, lv9ne, bk9, co9, cg9, ui9, mc9, cc9, sc9, pc9, lo9, dv9,
    ev9⟩ := stepCompilation_ok h9
  obtain ⟨lo10none, lo10some, lv10pw, bk10, co10, cg10, ic10, ui10, mc10,
    cc10, sc10, pc10, lo10, dv10, ev10⟩ := stepLora_ok h10
  obtain ⟨eq11, e11nil, dev11⟩ := stepAssertDevice_ok h11
  obtain ⟨eq12, ev12⟩ := stepEnvWiring_ok h12
  obtain ⟨mc13, cc13, pc13, cp13, lo13, dv13, ml13, mla13t, mla13f, mla13n,
    cpe13, ecp13⟩ := stepMla_ok h13
  have hmodel : p.1.model_config = p5.1.model_config := by
    rw [mc13, eq12, eq11, mc10, mc9, mc8, mc7, mc6]
  have hcd : p.1.cache_config.cache_dtype = p4.1.cache_config.cache_dtype := by
    rw [cc13, eq12, eq11, cc10, cc9, cc8, cc7, cd6, cc5]
  have hbs : p.1.cache_config.block_size = p2.1.cache_config.block_size := by
    rw [cc13, eq12, eq11, cc10, cc9, cc8, cc7, bs6, cc5, bs4, eq3]
  have hpf : p.1.cache_config.enable_prefix_caching =
      c.cache_config.enable_prefix_caching := by
    rw [cc13, eq12, eq11, cc10, cc9, cc8, cc7, pf6, cc5, pf4, eq3, pf2, cc1]
  have hkv : p.1.cache_config.cpu_kvcache_space_bytes =
      p6.1.cache_config.cpu_kvcache_space_bytes := by
    rw [cc13, eq12, eq11, cc10, cc9, cc8, cc7]
  have hpar : p.1.parallel_config = p7.1.parallel_config := by
    rw [pc13, eq12, eq11, pc10, pc9, pc8]
  have hcg : p.1.compilation_config.cudagraph_capture_sizes = [] := by
    rw [cp13, eq12, eq11, cg10, cg9, cg8]
  have hlv : p.1.compilation_config.level = p10.1.compilation_config.level := by
    rw [cp13, eq12, eq11]
  have hlo : p.1.lora_config = p9.1.lora_config := by
    rw [lo13, eq12, eq11, lo10]
  have hsched12 : p12.1.scheduler_config = c.scheduler_config := by
    rw [eq12, eq11, sc10, sc9, sc8, sc7, sc6, sc5, sc4, eq3, sc2, sc1]
  have hd2cd : p2.1.cache_config.cache_dtype = c.cache_config.cache_dtype := by
    rw [cd2, cc1]
  have hd2pf : p2.1.cache_config.enable_prefix_caching =
      c.cache_config.enable_prefix_caching := by
    rw [pf2, cc1]
  have hd2sc : p2.1.scheduler_config = c.scheduler_config := by
    rw [sc2, sc1]
  refine ⟨?_, ?_, ?_, ?_, ?_, ?_, ?_, ?_, ?_, ?_, ?_, ?_, ?_, ?_⟩
  · -- cascade
    intro m hm
    rw [hmodel] at hm
    obtain ⟨m0, hm0, _, hdis0⟩ := m5ex m hm
    rw [mc4, eq3, mc2, m1map] at hm0
    rcases hx : c.model_config with _ | m00 <;> rw [hx] at hm0
    · simp at hm0
    · simp at hm0
      rw [hdis0, ← hm0]
  · -- blockSome
    rw [hbs]
    exact bs2ne
  · -- block16
    intro hni
    rw [hbs]
    exact bs216 hni
  · -- chunkedFp8
    intro hor
    rw [hcd, cd4, eq3]
    have hda : p2.1.cache_config.cache_dtype = "auto" := by
      apply cond3
      rcases hor with hch | hpc
      · left
        have hc13 := cpe13 hch
        rw [hsched12] at hc13
        rw [hd2sc]
        exact hc13
      · right
        rw [hpf] at hpc
        rw [hd2pf]
        exact hpc
    rw [hda]
    simp
  · -- noE4m3
    rw [hcd]
    exact cd4ne
  · -- noHalf
    intro hne m hm
    rw [hcd] at hne
    rw [hmodel] at hm
    exact half5 hne m hm
  · -- kvBytes
    rw [hkv]
    exact kv6
  · -- executor
    rw [hpar]
    exact ex7
  · -- worker
    rw [hpar]
    exact wk7
  · -- cudagraph
    exact hcg
  · -- notPiecewise
    intro hpw
    rw [hlv] at hpw
    exact lv9ne (lv10pw hpw)
  · -- loraLevel
    intro hln
    rw [hlo] at hln
    rw [hlv]
    exact lo10some hln
  · -- device
    rw [dv13, eq12, eq11]
    exact dev11
  · -- mla
    intro m hm hu
    obtain ⟨ha, hb, hc', _⟩ := mla13t m (by rw [← mc13]; exact hm) hu
    refine ⟨ha, hb, ?_⟩
    rw [hc', ml13]

/-! ### Fixpoint lemmas: each rule leaves a resolved config unchanged -/

theorem stepCascade_fix {c : VllmConfig}
    (h : ∀ m, c.model_config = some m → m.disable_cascade_attn = true) :
    ∃ e, stepCascade c = Except.ok (c, e) := by
  rcases hm : c.model_config with _ | m
  · exact ⟨[], by unfold stepCascade; rw [hm]⟩
  · have hd := h m hm
    have hmm : ({m with disable_cascade_attn := true} : ModelConfig) = m := by
      obtain ⟨d1, d2, d3⟩ := m
      simp only at hd
      rw [hd]
    refine ⟨[Event.config "model_config.disable_cascade_attn"], ?_⟩
    unfold stepCascade
    rw [hm]
    simp only
    rw [hmm, ← hm]

theorem stepBlockSize_fix (env : Env) {c : VllmConfig}
    (hsome : c.cache_config.block_size ≠ none)
    (h16 : ¬ env.ipex_available = true → c.cache_config.block_size = some 16) :
    stepBlockSize env c = Except.ok (c, []) := by
  unfold stepBlockSize
  rw [if_neg hsome]
  simp only
  rw [if_neg]
  intro ⟨hni, hne⟩
  exact hne (h16 (by simp [hni]))

theorem stepChunkedFp8_fix {c : VllmConfig}
    (h : (c.scheduler_config.chunked_prefill_enabled = true ∨
        c.cache_config.enable_prefix_caching = true) →
      c.cache_config.cache_dtype = "auto") :
    stepChunkedFp8 c = Except.ok (c, []) := by
  unfold stepChunkedFp8
  rw [if_neg]
  intro ⟨hor, hne⟩
  apply hne
  apply h
  rcases hor with h1 | h1
  · exact Or.inl h1
  · exact Or.inr h1

theorem stepFp8Remap_fix {c : VllmConfig}
    (h : c.cache_config.cache_dtype ≠ "fp8_e4m3") :
    stepFp8Remap c = Except.ok (c, []) := by
  unfold stepFp8Remap
  rw [if_neg h]

theorem stepHalfToBf16_fix {c : VllmConfig}
    (h : c.cache_config.cache_dtype ≠ "auto" →
      ∀ m, c.model_config = some m → m.dtype ≠ TorchDtype.float16) :
    ∃ e, stepHalfToBf16 c = Except.ok (c, e) := by
  rcases hm : c.model_config with _ | m
  · exact ⟨[], by unfold stepHalfToBf16; rw [hm]⟩
  · refine ⟨[], ?_⟩
    unfold stepHalfToBf16
    rw [hm]
    simp only
    rw [if_neg]
    intro ⟨hne, hf16⟩
    exact h hne m hm hf16

theorem stepKvBytes_fix (env : Env) {c : VllmConfig}
    (h : c.cache_config.cpu_kvcache_space_bytes =
      some (get_device_total_memory env.kvcache_space)) :
    stepKvBytes env c =
      Except.ok (c, [Event.config "cache_config.cpu_kvcache_space_bytes"]) := by
  unfold stepKvBytes
  rw [← h]

theorem stepParallel_fix {c : VllmConfig}
    (hex : ¬ (c.parallel_config.world_size > 1 ∧
        c.parallel_config.distributed_executor_backend ≠ none ∧
        c.parallel_config.distributed_executor_backend ≠ some "mp"))
    (hwk : c.parallel_config.worker_cls ≠ "auto") :
    stepParallel c = Except.ok (c, []) := by
  unfold stepParallel
  rw [if_neg hex]
  simp only
  rw [if_neg hwk]

theorem stepCudagraph_fix {c : VllmConfig}
    (h : c.compilation_config.cudagraph_capture_sizes = []) :
    stepCudagraph c =
      Except.ok (c, [Event.config "compilation_config.cudagraph_capture_sizes"]) := by
  unfold stepCudagraph
  rw [← h]

theorem stepCompilation_fix (env : Env) {c : VllmConfig}
    (h : c.compilation_config.level ≠ CompilationLevel.PIECEWISE) :
    stepCompilation env c = Except.ok (c, []) := by
  unfold stepCompilation
  rw [if_neg h]

theorem stepLora_fix {c : VllmConfig}
    (h : c.lora_config ≠ none →
      c.compilation_config.level = CompilationLevel.NO_COMPILATION) :
    ∃ e, stepLora c = Except.ok (c, e) := by
  rcases hl : c.lora_config with _ | u
  · exact ⟨[], by unfold stepLora; rw [hl]⟩
  · have hlv := h (by rw [hl]; simp)
    refine ⟨[Event.config "compilation_config.level"], ?_⟩
    unfold stepLora
    rw [hl]
    simp only
    rw [← hlv, ← hl]

theorem stepAssertDevice_fix {c : VllmConfig}
    (h : c.device_config.device_type = "cpu") :
    stepAssertDevice c = Except.ok (c, []) := by
  unfold stepAssertDevice
  rw [if_pos h]

theorem stepEnvWiring_fix (env : Env) (c : VllmConfig) :
    ∃ e, stepEnvWiring env c = Except.ok (c, e) :=
  ⟨_, rfl⟩

theorem stepMla_fix {c : VllmConfig}
    (h : ∀ m, c.model_config = some m → m.use_mla = true →
      c.scheduler_config.enable_chunked_prefill = false ∧
      c.scheduler_config.chunked_prefill_enabled = false ∧
      c.scheduler_config.max_num_batched_tokens =
        max c.scheduler_config.max_model_len DEFAULT_MAX_NUM_BATCHED_TOKENS) :
    ∃ e, stepMla c = Except.ok (c, e) := by
  rcases hm : c.model_config with _ | m
  · exact ⟨[], by unfold stepMla; rw [hm]⟩
  · by_cases hu : m.use_mla = true
    · obtain ⟨h1, h2, h3⟩ := h m hm hu
      refine ⟨[Event.config "scheduler_config.enable_chunked_prefill",
        Event.config "scheduler_config.chunked_prefill_enabled",
        Event.config "scheduler_config.max_num_batched_tokens"], ?_⟩
      unfold stepMla
      rw [hm]
      simp only
      rw [if_pos hu]
      rcases hsc : c.scheduler_config with ⟨a, b, t, ml⟩
      rw [hsc] at h1 h2 h3
      simp only at h1 h2 h3
      subst h1 h2 h3
      simp only
      rw [← hsc, ← hm]
    · refine ⟨[], ?_⟩
      unfold stepMla
      rw [hm]
      simp only
      rw [if_neg hu]

/-- A resolved configuration is a fixpoint of the resolver. -/
theorem resolved_fix {env : Env} {c : VllmConfig} (h : Resolved env c) :
    ∃ e, check_and_update_config env c = Except.ok (c, e) := by
  obtain ⟨e1, f1⟩ := stepCascade_fix h.cascade
  have f2 := stepBlockSize_fix env h.blockSome h.block16
  have f3 := stepChunkedFp8_fix h.chunkedFp8
  have f4 := stepFp8Remap_fix h.noE4m3
  obtain ⟨e5, f5⟩ := stepHalfToBf16_fix h.noHalf
  have f6 := stepKvBytes_fix env h.kvBytes
  have f7 := stepParallel_fix h.executor h.worker
  have f8 := stepCudagraph_fix h.cudagraph
  have f9 := stepCompilation_fix env h.notPiecewise
  obtain ⟨e10, f10⟩ := stepLora_fix h.loraLevel
  have f11 := stepAssertDevice_fix h.device
  obtain ⟨e12, f12⟩ := stepEnvWiring_fix env c
  obtain ⟨e13, f13⟩ := stepMla_fix h.mla
  exact ⟨_, stepBind_parts (stepBind_parts (stepBind_parts (stepBind_parts
    (stepBind_parts (stepBind_parts (stepBind_parts (stepBind_parts
      (stepBind_parts (stepBind_parts (stepBind_parts (stepBind_parts
        f1 f2) f3) f4) f5) f6) f7) f8) f9) f10) f11) f12) f13⟩

/-! ### Error localisation helpers -/

theorem stepBind_error_inv {r : Except ConfigError (VllmConfig × List Event)}
    {f : VllmConfig → Except ConfigError (VllmConfig × List Event)}
    {e : ConfigError} (h : stepBind r f = Except.error e) :
    r = Except.error e ∨
    ∃ c1 e1, r = Except.ok (c1, e1) ∧ f c1 = Except.error e := by
  rcases hr : r with e' | ⟨c1, e1⟩
  · rw [hr] at h
    simp only [stepBind] at h
    simp at h
    left
    rw [h]
  · rw [hr] at h
    simp only [stepBind] at h
    rcases hf : f c1 with e'' | q <;> rw [hf] at h <;> simp at h
    right
    exact ⟨c1, e1, rfl, by rw [hf, h]⟩

theorem stepBind_error_prop {r : Except ConfigError (VllmConfig × List Event)}
    {f : VllmConfig → Except ConfigError (VllmConfig × List Event)}
    {e : ConfigError} (h : r = Except.error e) :
    stepBind r f = Except.error e := by
  rw [h]
  rfl

theorem no_error_of_isOk {ε α : Type} {o : Except ε α} (h : isOkE o = true)
    {e : ε} : o ≠ Except.error e := by
  intro hh
  rw [hh] at h
  simp [isOkE] at h

theorem stepBlockSize_error {env : Env} {c : VllmConfig} {e : ConfigError}
    (h : stepBlockSize env c = Except.error e) :
    ∃ bs, e = ConfigError.blockSizeRequiresIpex bs := by
  unfold stepBlockSize at h
  rcases hbs : c.cache_config.block_size with _ | n
  · rw [hbs] at h
    by_cases hip : env.ipex_available = true
    · simp [hip] at h
    · simp only [Bool.not_eq_true] at hip
      simp [hip] at h
  · rw [hbs] at h
    simp at h
    split at h
    · simp at h
      exact ⟨_, h.symm⟩
    · simp at h

theorem stepChunkedFp8_error {c : VllmConfig} {e : ConfigError}
    (h : stepChunkedFp8 c = Except.error e) :
    e = ConfigError.chunkedIncompatFp8 ∧
    (c.scheduler_config.chunked_prefill_enabled = true ∨
      c.cache_config.enable_prefix_caching = true) ∧
    c.cache_config.cache_dtype ≠ "auto" := by
  unfold stepChunkedFp8 at h
  split at h
  · rename_i hcond
    simp at h
    refine ⟨h.symm, ?_, hcond.2⟩
    rcases hcond.1 with h1 | h1
    · exact Or.inl (by simpa using h1)
    · exact Or.inr (by simpa using h1)
  · simp at h

theorem stepAssertDevice_error {c : VllmConfig} {e : ConfigError}
    (h : stepAssertDevice c = Except.error e) :
    e = ConfigError.deviceTypeNotCpu := by
  unfold stepAssertDevice at h
  split at h
  · simp at h
  · simp at h
    rw [h]

/-! ### Shared concrete configurations used in witnesses and
counterexamples -/

/-- A benign environment: no ipex, no KV-space setting, no CI flag. -/
def envStd : Env := ⟨false, none, none, "", 8, 8⟩

/-- A benign model sub-config. -/
def mcStd : ModelConfig := ⟨TorchDtype.float32, false, false⟩

/-- A benign cache sub-config. -/
def ccStd : CacheConfig := ⟨some 16, "auto", false, none⟩

/-- A benign scheduler sub-config. -/
def scStd : SchedulerConfig := ⟨false, false, 2048, 1024⟩

/-- A benign parallel sub-config. -/
def pcStd : ParallelConfig := ⟨1, 1, none, "w"⟩

/-- A benign compilation sub-config. -/
def cpStd : CompilationConfig := ⟨CompilationLevel.NO_COMPILATION, "", [], [], [], false⟩

/-- A benign full configuration that resolves without error. -/
def cfgStd : VllmConfig := ⟨some mcStd, ccStd, scStd, pcStd, cpStd, none, ⟨"cpu"⟩⟩

/-! ### Claim theorems -/

/-- C4: `get_attn_backend_cls` rejects with the MLA rejection for every
input with `use_mla = true` (whatever the requested backend and execution
mode), rejects with the V1 rejection when `use_mla = false` and
`use_v1 = false`, and returns the fixed Torch-SDPA backend identifier
exactly when `use_mla = false` and `use_v1 = true`, for every requested
backend (a non-default request is ignored, not rejected). -/
theorem c4_attn_backend_rejections (sb : Option AttnBackendTag) (hs : Nat)
    (dt : TorchDtype) (kv : Option String) (bs : Nat) :
    (∀ v1, get_attn_backend_cls sb hs dt kv bs v1 true =
      Except.error AttnRejection.mlaNotSupported) ∧
    get_attn_backend_cls sb hs dt kv bs false false =
      Except.error AttnRejection.onlySupportsV1 ∧
    get_attn_backend_cls sb hs dt kv bs true false =
      Except.ok "vllm.v1.attention.backends.cpu_attn.TorchSDPABackend" :=
  ⟨fun _ => rfl, rfl, rfl⟩

/-- C10: the outcome of `get_attn_backend_cls` depends only on the
requested backend, the MLA flag and the V1 flag: two calls agreeing on
those three inputs but with arbitrary head sizes, dtypes, kv-cache dtypes
and block sizes give identical results. -/
theorem c10_attn_backend_noninterference (sb : Option AttnBackendTag)
    (v1 mla : Bool) (hs1 hs2 : Nat) (dt1 dt2 : TorchDtype)
    (kv1 kv2 : Option String) (bs1 bs2 : Nat) :
    get_attn_backend_cls sb hs1 dt1 kv1 bs1 v1 mla =
      get_attn_backend_cls sb hs2 dt2 kv2 bs2 v1 mla := rfl

/-- C5: `supported_dtypes` is a total function of architecture and OS:
POWERPC always gives exactly {bfloat16, float32}; ARM on a Darwin-family
OS gives exactly {float16, float32}; every other combination gives
exactly {bfloat16, float16, float32}. -/
theorem c5_supported_dtypes_table (arch : CpuArchEnum) (os : String) :
    (arch = CpuArchEnum.POWERPC →
      supported_dtypes arch os = [TorchDtype.bfloat16, TorchDtype.float32]) ∧
    (arch = CpuArchEnum.ARM → strStartsWith os "darwin" = true →
      supported_dtypes arch os = [TorchDtype.float16, TorchDtype.float32]) ∧
    (arch ≠ CpuArchEnum.POWERPC →
      ¬ (strStartsWith os "darwin" = true ∧ arch = CpuArchEnum.ARM) →
      supported_dtypes arch os =
        [TorchDtype.bfloat16, TorchDtype.float16, TorchDtype.float32]) := by
  refine ⟨?_, ?_, ?_⟩
  · intro h
    rw [supported_dtypes, if_pos h]
  · intro ha hd
    rw [supported_dtypes, if_neg (by rw [ha]; intro hh; cases hh),
      if_pos ⟨hd, ha⟩]
  · intro h1 h2
    rw [supported_dtypes, if_neg h1, if_neg h2]

/-- Witness for C5 at three concrete inputs. -/
theorem c5_witness :
    supported_dtypes CpuArchEnum.POWERPC "linux" =
      [TorchDtype.bfloat16, TorchDtype.float32] ∧
    supported_dtypes CpuArchEnum.ARM "darwin" =
      [TorchDtype.float16, TorchDtype.float32] ∧
    supported_dtypes CpuArchEnum.X86 "linux" =
      [TorchDtype.bfloat16, TorchDtype.float16, TorchDtype.float32] :=
  ⟨(c5_supported_dtypes_table CpuArchEnum.POWERPC "linux").1 rfl,
   (c5_supported_dtypes_table CpuArchEnum.ARM "darwin").2.1 rfl (by decide),
   (c5_supported_dtypes_table CpuArchEnum.X86 "linux").2.2 (by decide)
     (by decide)⟩

/-- C7: the resolver is idempotent: whenever it succeeds, running it again
on the resolved configuration (same environment) succeeds and changes no
configuration field. -/
theorem c7_resolve_idempotent (env : Env) (c c' : VllmConfig)
    (evs : List Event)
    (h : check_and_update_config env c = Except.ok (c', evs)) :
    ∃ evs', check_and_update_config env c' = Except.ok (c', evs') :=
  resolved_fix (resolve_ok_resolved h)

/-- The resolved form of `cfgStd` under `envStd`. -/
def cfgStdResolved : VllmConfig :=
  ⟨some ⟨TorchDtype.float32, false, true⟩,
   ⟨some 16, "auto", false, some 4294967296⟩, scStd, pcStd, cpStd, none,
   ⟨"cpu"⟩⟩

/-- The event trail of resolving `cfgStd` under `envStd`. -/
def evsStd : List Event :=
  [Event.config "model_config.disable_cascade_attn",
   Event.config "cache_config.cpu_kvcache_space_bytes",
   Event.config "compilation_config.cudagraph_capture_sizes",
   Event.env "VLLM_WORKER_MULTIPROC_METHOD",
   Event.env "NUMEXPR_MAX_THREADS",
   Event.env "OMP_NUM_THREADS",
   Event.env "TORCHINDUCTOR_COMPILE_THREADS",
   Event.env "LOCAL_WORLD_SIZE"]

/-- Witness for C7 at a concrete configuration. -/
theorem c7_witness :
    ∃ evs', check_and_update_config envStd cfgStdResolved =
      Except.ok (cfgStdResolved, evs') :=
  c7_resolve_idempotent envStd cfgStd cfgStdResolved evsStd (by rfl)

/-- C6 (amended): topology discovery retains exactly the parsed records
none of whose fields is the `-1` parse-failure sentinel and whose id is
in the affinity mask, and returns the sorted duplicate-free list of
exactly the NUMA-node ids of the retained records. -/
theorem c6_topology_filter (cpus : List LogicalCPUInfo) (aff : List Int) :
    (∀ x, x ∈ (get_allowed_cpu_memory_node_list cpus aff).2 ↔
      x ∈ cpus ∧
      ¬ (x.id = -1 ∨ x.physical_core = -1 ∨ x.numa_node = -1) ∧
      x.id ∈ aff) ∧
    (get_allowed_cpu_memory_node_list cpus aff).1.Sorted (· ≤ ·) ∧
    (get_allowed_cpu_memory_node_list cpus aff).1.Nodup ∧
    (∀ n, n ∈ (get_allowed_cpu_memory_node_list cpus aff).1 ↔
      ∃ x, x ∈ (get_allowed_cpu_memory_node_list cpus aff).2 ∧
        x.numa_node = n) := by
  unfold get_allowed_cpu_memory_node_list
  simp only
  refine ⟨?_, ?_, ?_, ?_⟩
  · intro x
    simp [List.mem_filter, decide_eq_true_eq, and_assoc]
    tauto
  · have hp := @List.sorted_mergeSort Int (fun a b : Int => decide (a ≤ b))
      (by intro a b c h1 h2; simp at *; omega)
      (by intro a b; rcases Int.le_total a b with h | h <;> simp [h])
      ((((cpus.filter fun x =>
          ¬ (x.id = -1 ∨ x.physical_core = -1 ∨ x.numa_node = -1)).filter
            fun x => x.id ∈ aff).map fun x => x.numa_node).dedup)
    exact hp.imp fun hab => by simpa using hab
  · exact ((List.mergeSort_perm _ _).nodup_iff).mpr (List.nodup_dedup _)
  · intro n
    simp [List.mem_mergeSort, List.mem_dedup, List.mem_map]

/-- C6 counterexample: a parsed record whose NUMA-node field is the
negative integer `-2` (not the `-1` sentinel) is retained by topology
discovery, contradicting the claim that only records with non-negative
fields are returned. -/
theorem c6_counterexample :
    LogicalCPUInfo.parseInt "-2" = -2 ∧
    (get_allowed_cpu_memory_node_list
      [⟨0, 0, LogicalCPUInfo.parseInt "-2"⟩] [0]).2 = [⟨0, 0, -2⟩] ∧
    ¬ (0 ≤ (-2 : Int)) := by
  exact ⟨by decide, rfl, by decide⟩

/-- Witness for C6 on the spec scenario: CPUs {0,1,2,3} with affinity
{0,2}: exactly CPUs 0 and 2 are retained and node 1 (touched by CPU 2)
is reported. -/
theorem c6_witness :
    (get_allowed_cpu_memory_node_list
      [⟨0, 0, 0⟩, ⟨1, 0, 0⟩, ⟨2, 1, 1⟩, ⟨3, 1, 1⟩] [0, 2]).2 =
      [⟨0, 0, 0⟩, ⟨2, 1, 1⟩] ∧
    1 ∈ (get_allowed_cpu_memory_node_list
      [⟨0, 0, 0⟩, ⟨1, 0, 0⟩, ⟨2, 1, 1⟩, ⟨3, 1, 1⟩] [0, 2]).1 :=
  ⟨rfl,
   ((c6_topology_filter [⟨0, 0, 0⟩, ⟨1, 0, 0⟩, ⟨2, 1, 1⟩, ⟨3, 1, 1⟩]
      [0, 2]).2.2.2 1).mpr ⟨⟨2, 1, 1⟩, by decide, rfl⟩⟩

/-- Input exercising the MLA branch: `use_mla = true`, prefix caching
enabled (cache dtype `"auto"`, so resolution succeeds), and a batched-token
budget of 100000 above `max(max_model_len, DEFAULT)`. -/
def cfgMla : VllmConfig :=
  ⟨some ⟨TorchDtype.float32, true, false⟩,
   ⟨some 16, "auto", true, none⟩, ⟨false, true, 100000, 1024⟩, pcStd, cpStd,
   none, ⟨"cpu"⟩⟩

/-- C2: evaluation of the resolver at the failing input: with MLA enabled
the code logs that chunked prefill *and prefix caching* are forced off,
but only the chunked-prefill flags are cleared — prefix caching stays
enabled — and the batched-token budget is overwritten with
`max(max_model_len, 8192) = 8192`, *lowering* it from 100000. -/
theorem c2_mla_divergence :
    (resolvedOption envStd cfgMla).map (fun c =>
      (c.cache_config.enable_prefix_caching,
       c.scheduler_config.enable_chunked_prefill,
       c.scheduler_config.chunked_prefill_enabled,
       c.scheduler_config.max_num_batched_tokens)) =
    some (true, false, false, 8192) := rfl

/-- C3: cache block-size resolution: if unset, the resolver sets it to 128
with the ipex extension and 16 without; if explicitly set to a value other
than 16 without the extension, resolution fails with the block-size
error. -/
theorem c3_block_size_resolution (env : Env) (c : VllmConfig) :
    (c.cache_config.block_size = none →
      ∀ c' evs, check_and_update_config env c = Except.ok (c', evs) →
        c'.cache_config.block_size =
          some (if env.ipex_available then 128 else 16)) ∧
    (∀ n, c.cache_config.block_size = some n → n ≠ 16 →
      env.ipex_available = false →
      check_and_update_config env c =
        Except.error (ConfigError.blockSizeRequiresIpex (some n))) := by
  constructor
  · intro hb c' evs h
    obtain ⟨p1, p2, p3, p4, p5, p6, p7, p8, p9, p10, p11, p12, e14,
      h1, h2, h3, h4, h5, h6, h7, h8, h9, h10, h11, h12, h13, hE⟩ :=
      resolve_chain h
    obtain ⟨m1map, m1mla, m1dt, cc1, sc1, pc1, cp1, lo1, dv1, ev1⟩ :=
      stepCascade_ok h1
    obtain ⟨bs2n, bs2s, bs2ne, bs216, cd2, pf2, kv2, mc2, sc2, pc2, cp2, lo2,
      dv2, ev2⟩ := stepBlockSize_ok h2
    obtain ⟨eq3, ev3, cond3⟩ := stepChunkedFp8_ok h3
    obtain ⟨cd4, cd4ne, mc4, sc4, pc4, cp4, lo4, dv4, bs4, pf4, kv4, ev4⟩ :=
      stepFp8Remap_ok h4
    obtain ⟨half5, mla5, m5ex, m5none, cc5, sc5, pc5, cp5, lo5, dv5, ev5⟩ :=
      stepHalfToBf16_ok h5
    obtain ⟨kv6, cd6, bs6, pf6, mc6, sc6, pc6, cp6, lo6, dv6, ev6⟩ :=
      stepKvBytes_ok h6
    obtain ⟨ex7, wk7, ws7, tp7, mc7, cc7, sc7, cp7, lo7, dv7, ev7⟩ :=
      stepParallel_ok h7
    obtain ⟨cg8, lv8, bk8, co8, ic8, ui8, mc8, cc8, sc8, pc8, lo8, dv8,
      ev8⟩ := stepCudagraph_ok h8
    obtain ⟨lv9, lv9ne, bk9, co9, cg9, ui9, mc9, cc9, sc9, pc9, lo9, dv9,
      ev9⟩ := stepCompilation_ok h9
    obtain ⟨lo10none, lo10some, lv10pw, bk10, co10, cg10, ic10, ui10, mc10,
      cc10, sc10, pc10, lo10, dv10, ev10⟩ := stepLora_ok h10
    obtain ⟨eq11, e11nil, dev11⟩ := stepAssertDevice_ok h11
    obtain ⟨eq12, ev12⟩ := stepEnvWiring_ok h12
    obtain ⟨mc13, cc13, pc13, cp13, lo13, dv13, ml13, mla13t, mla13f,
      mla13n, cpe13, ecp13⟩ := stepMla_ok h13
    simp only at cc13
    have hbs : c'.cache_config.block_size = p2.1.cache_config.block_size := by
      rw [cc13, eq12, eq11, cc10, cc9, cc8, cc7, bs6, cc5, bs4, eq3]
    rw [hbs, bs2n (by rw [cc1]; exact hb)]
  · intro n hb hn hipex
    obtain ⟨q1, k1⟩ := isOkE_exists (stepCascade_isOk c)
    obtain ⟨q1map, q1mla, q1dt, qcc1, qsc1, qpc1, qcp1, qlo1, qdv1, qev1⟩ :=
      stepCascade_ok k1
    have herr : stepBlockSize env q1.1 =
        Except.error (ConfigError.blockSizeRequiresIpex (some n)) := by
      unfold stepBlockSize
      rw [qcc1, hb]
      rw [if_neg (show ¬ ((some n : Option Nat) = none) by simp)]
      simp only
      rw [qcc1, hb]
      rw [if_pos ⟨by simp [hipex], by simpa using hn⟩]
    unfold check_and_update_config
    exact stepBind_error_prop (stepBind_error_prop (stepBind_error_prop
      (stepBind_error_prop (stepBind_error_prop (stepBind_error_prop
        (stepBind_error_prop (stepBind_error_prop (stepBind_error_prop
          (stepBind_error_prop (stepBind_error_prop
            (stepBind_parts_error k1 herr)))))))))))

/-- Configuration with block size explicitly 32. -/
def cfgBlock32 : VllmConfig :=
  ⟨some mcStd, ⟨some 32, "auto", false, none⟩, scStd, pcStd, cpStd, none,
   ⟨"cpu"⟩⟩

/-- Configuration with block size unset. -/
def cfgBlockNone : VllmConfig :=
  ⟨some mcStd, ⟨none, "auto", false, none⟩, scStd, pcStd, cpStd, none,
   ⟨"cpu"⟩⟩

/-- Witness for C3: block size 32 without the extension is rejected with
the block-size error; block size unset without the extension resolves to
16. -/
theorem c3_witness :
    check_and_update_config envStd cfgBlock32 =
      Except.error (ConfigError.blockSizeRequiresIpex (some 32)) ∧
    (resolvedOption envStd cfgBlockNone).map
      (fun c => c.cache_config.block_size) = some (some 16) := by
  constructor
  · exact (c3_block_size_resolution envStd cfgBlock32).2 32 rfl
      (by decide) rfl
  · obtain ⟨p, hp⟩ := isOkE_exists
      (show isOkE (check_and_update_config envStd cfgBlockNone) = true
        from rfl)
    have hb := (c3_block_size_resolution envStd cfgBlockNone).1 rfl p.1 p.2
      (by rw [hp])
    unfold resolvedOption
    rw [hp]
    simp [hb, envStd]

/-- Configuration with cache dtype `"fp8_e4m3"` and chunked prefill
enabled. -/
def cfgFp8Chunked : VllmConfig :=
  ⟨some mcStd, ⟨some 16, "fp8_e4m3", false, none⟩, ⟨true, true, 2048, 1024⟩,
   pcStd, cpStd, none, ⟨"cpu"⟩⟩

/-- C1 counterexample: with chunked prefill enabled, a configuration whose
cache dtype is `"fp8_e4m3"` makes the resolver fail with the
chunked-prefill/FP8 incompatibility error (the compatibility check runs
before the remap and `"fp8_e4m3" ≠ "auto"`), contradicting the claim that
such a configuration never errors because of that dtype. -/
theorem c1_counterexample :
    check_and_update_config envStd cfgFp8Chunked =
      Except.error ConfigError.chunkedIncompatFp8 := rfl

/-- C1 (amended): for a configuration with cache dtype `"fp8_e4m3"` in
which neither chunked prefill nor prefix caching is enabled, the resolver
rewrites the cache dtype to `"fp8_e5m2"` whenever it succeeds, and it
never fails with the chunked-prefill/FP8 incompatibility error (the only
error it can report for such a configuration concerns the block size or
the device-type assert, neither caused by the cache dtype). -/
theorem c1_fp8_remap (env : Env) (c : VllmConfig)
    (hd : c.cache_config.cache_dtype = "fp8_e4m3")
    (hch : c.scheduler_config.chunked_prefill_enabled = false)
    (hpf : c.cache_config.enable_prefix_caching = false) :
    (∀ c' evs, check_and_update_config env c = Except.ok (c', evs) →
      c'.cache_config.cache_dtype = "fp8_e5m2") ∧
    (∀ e, check_and_update_config env c = Except.error e →
      e ≠ ConfigError.chunkedIncompatFp8) := by
  constructor
  · intro c' evs h
    obtain ⟨p1, p2, p3, p4, p5, p6, p7, p8, p9, p10, p11, p12, e14,
      h1, h2, h3, h4, h5, h6, h7, h8, h9, h10, h11, h12, h13, hE⟩ :=
      resolve_chain h
    obtain ⟨m1map, m1mla, m1dt, cc1, sc1, pc1, cp1, lo1, dv1, ev1⟩ :=
      stepCascade_ok h1
    obtain ⟨bs2n, bs2s, bs2ne, bs216, cd2, pf2, kv2, mc2, sc2, pc2, cp2, lo2,
      dv2, ev2⟩ := stepBlockSize_ok h2
    obtain ⟨eq3, ev3, cond3⟩ := stepChunkedFp8_ok h3
    obtain ⟨cd4, cd4ne, mc4, sc4, pc4, cp4, lo4, dv4, bs4, pf4, kv4, ev4⟩ :=
      stepFp8Remap_ok h4
    obtain ⟨half5, mla5, m5ex, m5none, cc5, sc5, pc5, cp5, lo5, dv5, ev5⟩ :=
      stepHalfToBf16_ok h5
    obtain ⟨kv6, cd6, bs6, pf6, mc6, sc6, pc6, cp6, lo6, dv6, ev6⟩ :=
      stepKvBytes_ok h6
    obtain ⟨ex7, wk7, ws7, tp7, mc7, cc7, sc7, cp7, lo7, dv7, ev7⟩ :=
      stepParallel_ok h7
    obtain ⟨cg8, lv8, bk8, co8, ic8, ui8, mc8, cc8, sc8, pc8, lo8, dv8,
      ev8⟩ := stepCudagraph_ok h8
    obtain ⟨lv9, lv9ne, bk9, co9, cg9, ui9, mc9, cc9, sc9, pc9, lo9, dv9,
      ev9⟩ := stepCompilation_ok h9
    obtain ⟨lo10none, lo10some, lv10pw, bk10, co10, cg10, ic10, ui10, mc10,
      cc10, sc10, pc10, lo10, dv10, ev10⟩ := stepLora_ok h10
    obtain ⟨eq11, e11nil, dev11⟩ := stepAssertDevice_ok h11
    obtain ⟨eq12, ev12⟩ := stepEnvWiring_ok h12
    obtain ⟨mc13, cc13, pc13, cp13, lo13, dv13, ml13, mla13t, mla13f,
      mla13n, cpe13, ecp13⟩ := stepMla_ok h13
    simp only at cc13
    have hcd : c'.cache_config.cache_dtype =
        p4.1.cache_config.cache_dtype := by
      rw [cc13, eq12, eq11, cc10, cc9, cc8, cc7, cd6, cc5]
    rw [hcd, cd4, eq3, cd2, cc1, hd]
    simp
  · intro e he heq
    subst heq
    unfold check_and_update_config at he
    rcases stepBind_error_inv he with he | ⟨cm, em, _, herr⟩
    rotate_left
    · exact absurd herr (no_error_of_isOk (stepMla_isOk cm))
    rcases stepBind_error_inv he with he | ⟨cm, em, _, herr⟩
    rotate_left
    · exact absurd herr (no_error_of_isOk (stepEnvWiring_isOk env cm))
    rcases stepBind_error_inv he with he | ⟨cm, em, _, herr⟩
    rotate_left
    · exact absurd (stepAssertDevice_error herr) (by decide)
    rcases stepBind_error_inv he with he | ⟨cm, em, _, herr⟩
    rotate_left
    · exact absurd herr (no_error_of_isOk (stepLora_isOk cm))
    rcases stepBind_error_inv he with he | ⟨cm, em, _, herr⟩
    rotate_left
    · exact absurd herr (no_error_of_isOk (stepCompilation_isOk env cm))
    rcases stepBind_error_inv he with he | ⟨cm, em, _, herr⟩
    rotate_left
    · exact absurd herr (no_error_of_isOk (stepCudagraph_isOk cm))
    rcases stepBind_error_inv he with he | ⟨cm, em, _, herr⟩
    rotate_left
    · exact absurd herr (no_error_of_isOk (stepParallel_isOk cm))
    rcases stepBind_error_inv he with he | ⟨cm, em, _, herr⟩
    rotate_left
    · exact absurd herr (no_error_of_isOk (stepKvBytes_isOk env cm))
    rcases stepBind_error_inv he with he | ⟨cm, em, _, herr⟩
    rotate_left
    · exact absurd herr (no_error_of_isOk (stepHalfToBf16_isOk cm))
    rcases stepBind_error_inv he with he | ⟨cm, em, _, herr⟩
    rotate_left
    · exact absurd herr (no_error_of_isOk (stepFp8Remap_isOk cm))
    rcases stepBind_error_inv he with he | ⟨c2m, e2m, hok2, herr⟩
    rotate_left
    · obtain ⟨c1m, e1m, e2m', hok1, hok2', hEE⟩ := stepBind_ok hok2
      obtain ⟨m1map, m1mla, m1dt, cc1, sc1, pc1, cp1, lo1, dv1, ev1⟩ :=
        stepCascade_ok hok1
      obtain ⟨bs2n, bs2s, bs2ne, bs216, cd2, pf2, kv2, mc2, sc2, pc2, cp2,
        lo2, dv2, ev2⟩ := stepBlockSize_ok hok2'
      obtain ⟨_, hcond, _⟩ := stepChunkedFp8_error herr
      simp only at sc2 pf2 mc2 cd2
      rcases hcond with h1 | h1
      · rw [sc2, sc1] at h1
        rw [hch] at h1
        cases h1
      · rw [pf2, cc1] at h1
        rw [hpf] at h1
        cases h1
    rcases stepBind_error_inv he with he | ⟨cm, em, _, herr⟩
    rotate_left
    · obtain ⟨bs, hbs⟩ := stepBlockSize_error herr
      cases hbs
    exact absurd he (no_error_of_isOk (stepCascade_isOk c))

/-- Configuration with cache dtype `"fp8_e4m3"` and neither chunked
prefill nor prefix caching. -/
def cfgFp8Plain : VllmConfig :=
  ⟨some mcStd, ⟨some 16, "fp8_e4m3", false, none⟩, scStd, pcStd, cpStd,
   none, ⟨"cpu"⟩⟩

/-- Witness for C1 at a concrete configuration: the cache dtype ends up
rewritten to `"fp8_e5m2"`. -/
theorem c1_witness :
    (resolvedOption envStd cfgFp8Plain).map
      (fun c => c.cache_config.cache_dtype) = some "fp8_e5m2" := by
  obtain ⟨p, hp⟩ := isOkE_exists
    (show isOkE (check_and_update_config envStd cfgFp8Plain) = true
      from rfl)
  have hr := (c1_fp8_remap envStd cfgFp8Plain rfl rfl rfl).1 p.1 p.2
    (by rw [hp])
  unfold resolvedOption
  rw [hp]
  simp [hr]

theorem noConfigAfterEnv_envOnly {l : List Event}
    (h : l.all Event.isEnv = true) : noConfigAfterEnv l = true := by
  induction l with
  | nil => rfl
  | cons e t ih =>
    simp only [List.all_cons, Bool.and_eq_true] at h
    unfold noConfigAfterEnv
    rw [if_pos h.1]
    exact h.2

theorem noConfigAfterEnv_append {l1 l2 : List Event}
    (h1 : l1.all Event.isConfig = true) (h2 : noConfigAfterEnv l2 = true) :
    noConfigAfterEnv (l1 ++ l2) = true := by
  induction l1 with
  | nil => simpa using h2
  | cons e t ih =>
    simp only [List.all_cons, Bool.and_eq_true] at h1
    rw [List.cons_append]
    unfold noConfigAfterEnv
    rw [if_neg]
    · exact ih h1.2
    · cases e
      · simp [Event.isEnv]
      · simp [Event.isConfig] at h1

/-- C8 (amended): when the model does not use multi-head latent attention,
every configuration-field write happens before every environment-variable
write (the MLA branch is the single exception the code places after the
environment wiring). -/
theorem c8_env_writes_last (env : Env) (c : VllmConfig)
    (hm : ∀ m, c.model_config = some m → m.use_mla = false)
    (c' : VllmConfig) (evs : List Event)
    (h : check_and_update_config env c = Except.ok (c', evs)) :
    noConfigAfterEnv evs = true := by
  obtain ⟨p1, p2, p3, p4, p5, p6, p7, p8, p9, p10, p11, p12, e14,
    h1, h2, h3, h4, h5, h6, h7, h8, h9, h10, h11, h12, h13, hE⟩ :=
    resolve_chain h
  obtain ⟨m1map, m1mla, m1dt, cc1, sc1, pc1, cp1, lo1, dv1, ev1⟩ :=
    stepCascade_ok h1
  obtain ⟨bs2n, bs2s, bs2ne, bs216, cd2, pf2, kv2, mc2, sc2, pc2, cp2, lo2,
    dv2, ev2⟩ := stepBlockSize_ok h2
  obtain ⟨eq3, ev3, cond3⟩ := stepChunkedFp8_ok h3
  obtain ⟨cd4, cd4ne, mc4, sc4, pc4, cp4, lo4, dv4, bs4, pf4, kv4, ev4⟩ :=
    stepFp8Remap_ok h4
  obtain ⟨half5, mla5, m5ex, m5none, cc5, sc5, pc5, cp5, lo5, dv5, ev5⟩ :=
    stepHalfToBf16_ok h5
  obtain ⟨kv6, cd6, bs6, pf6, mc6, sc6, pc6, cp6, lo6, dv6, ev6⟩ :=
    stepKvBytes_ok h6
  obtain ⟨ex7, wk7, ws7, tp7, mc7, cc7, sc7, cp7, lo7, dv7, ev7⟩ :=
    stepParallel_ok h7
  obtain ⟨cg8, lv8, bk8, co8, ic8, ui8, mc8, cc8, sc8, pc8, lo8, dv8,
    ev8⟩ := stepCudagraph_ok h8
  obtain ⟨lv9, lv9ne, bk9, co9, cg9, ui9, mc9, cc9, sc9, pc9, lo9, dv9,
    ev9⟩ := stepCompilation_ok h9
  obtain ⟨lo10none, lo10some, lv10pw, bk10, co10, cg10, ic10, ui10, mc10,
    cc10, sc10, pc10, lo10, dv10, ev10⟩ := stepLora_ok h10
  obtain ⟨eq11, e11nil, dev11⟩ := stepAssertDevice_ok h11
  obtain ⟨eq12, ev12⟩ := stepEnvWiring_ok h12
  obtain ⟨mc13, cc13, pc13, cp13, lo13, dv13, ml13, mla13t, mla13f,
    mla13n, cpe13, ecp13⟩ := stepMla_ok h13
  have hmla12 : p12.1.model_config.map ModelConfig.use_mla =
      c.model_config.map ModelConfig.use_mla := by
    rw [eq12, eq11, mc10, mc9, mc8, mc7, mc6, mla5, mc4, eq3, mc2, m1mla]
  have he14 : e14 = [] := by
    rcases hmc : p12.1.model_config with _ | m
    · exact (mla13n hmc).2
    · rw [hmc] at hmla12
      rcases hx : c.model_config with _ | m0 <;> rw [hx] at hmla12
      · simp at hmla12
      · simp at hmla12
        exact (mla13f m hmc (by rw [hmla12]; exact hm m0 hx)).2
  simp only at hE
  rw [hE, he14]
  refine noConfigAfterEnv_append ev1 (noConfigAfterEnv_append ev2
    (noConfigAfterEnv_append (by rw [ev3]; rfl) (noConfigAfterEnv_append ev4
      (noConfigAfterEnv_append ev5 (noConfigAfterEnv_append ev6
        (noConfigAfterEnv_append ev7 (noConfigAfterEnv_append ev8
          (noConfigAfterEnv_append ev9 (noConfigAfterEnv_append ev10
            (noConfigAfterEnv_append (by rw [e11nil]; rfl) ?_))))))))))
  rw [List.append_nil]
  exact noConfigAfterEnv_envOnly ev12

/-- Configuration with the MLA flag set and a benign remainder. -/
def cfgMlaOnly : VllmConfig :=
  ⟨some ⟨TorchDtype.float32, true, false⟩, ccStd, scStd, pcStd, cpStd,
   none, ⟨"cpu"⟩⟩

/-- C8 counterexample: with MLA enabled the resolver writes the scheduler
fields *after* the environment variables, so the event trail has a
configuration write after an environment write. -/
theorem c8_counterexample :
    (resolveEvents envStd cfgMlaOnly).map noConfigAfterEnv = some false :=
  rfl

/-- Witness for C8 at a concrete MLA-free configuration. -/
theorem c8_witness : noConfigAfterEnv evsStd = true := by
  apply c8_env_writes_last envStd cfgStd ?_ cfgStdResolved evsStd (by rfl)
  intro m hm
  simp only [cfgStd] at hm
  injection hm with hmm
  rw [← hmm]
  rfl

/-- C9 (amended): when the compilation level is piecewise and no LoRA
adapters are configured, the resolver downgrades the level to
`DYNAMO_ONCE`, selects the `"eager"` backend exactly when the
`VLLM_CPU_CI_ENV` flag is set (else `"inductor"`), and restricts
`custom_ops` to `["none"]` exactly when the configuration's
`use_inductor` flag is set — a flag independent of the backend string
just selected. -/
theorem c9_piecewise_compilation (env : Env) (c : VllmConfig)
    (hl : c.compilation_config.level = CompilationLevel.PIECEWISE)
    (hlo : c.lora_config = none) :
    ∀ c' evs, check_and_update_config env c = Except.ok (c', evs) →
      c'.compilation_config.level = CompilationLevel.DYNAMO_ONCE ∧
      c'.compilation_config.backend =
        (if env.ci_env.getD "0" ≠ "0" then "eager" else "inductor") ∧
      (c.compilation_config.use_inductor = true →
        c'.compilation_config.custom_ops = ["none"]) ∧
      (c.compilation_config.use_inductor = false →
        c'.compilation_config.custom_ops =
          c.compilation_config.custom_ops) := by
  intro c' evs h
  obtain ⟨p1, p2, p3, p4, p5, p6, p7, p8, p9, p10, p11, p12, e14,
    h1, h2, h3, h4, h5, h6, h7, h8, h9, h10, h11, h12, h13, hE⟩ :=
    resolve_chain h
  obtain ⟨m1map, m1mla, m1dt, cc1, sc1, pc1, cp1, lo1, dv1, ev1⟩ :=
    stepCascade_ok h1
  obtain ⟨bs2n, bs2s, bs2ne, bs216, cd2, pf2, kv2, mc2, sc2, pc2, cp2, lo2,
    dv2, ev2⟩ := stepBlockSize_ok h2
  obtain ⟨eq3, ev3, cond3⟩ := stepChunkedFp8_ok h3
  obtain ⟨cd4, cd4ne, mc4, sc4, pc4, cp4, lo4, dv4, bs4, pf4, kv4, ev4⟩ :=
    stepFp8Remap_ok h4
  obtain ⟨half5, mla5, m5ex, m5none, cc5, sc5, pc5, cp5, lo5, dv5, ev5⟩ :=
    stepHalfToBf16_ok h5
  obtain ⟨kv6, cd6, bs6, pf6, mc6, sc6, pc6, cp6, lo6, dv6, ev6⟩ :=
    stepKvBytes_ok h6
  obtain ⟨ex7, wk7, ws7, tp7, mc7, cc7, sc7, cp7, lo7, dv7, ev7⟩ :=
    stepParallel_ok h7
  obtain ⟨cg8, lv8, bk8, co8, ic8, ui8, mc8, cc8, sc8, pc8, lo8, dv8,
    ev8⟩ := stepCudagraph_ok h8
  obtain ⟨lv9, lv9ne, bk9, co9, cg9, ui9, mc9, cc9, sc9, pc9, lo9, dv9,
    ev9⟩ := stepCompilation_ok h9
  obtain ⟨lo10none, lo10some, lv10pw, bk10, co10, cg10, ic10, ui10, mc10,
    cc10, sc10, pc10, lo10, dv10, ev10⟩ := stepLora_ok h10
  obtain ⟨eq11, e11nil, dev11⟩ := stepAssertDevice_ok h11
  obtain ⟨eq12, ev12⟩ := stepEnvWiring_ok h12
  obtain ⟨mc13, cc13, pc13, cp13, lo13, dv13, ml13, mla13t, mla13f,
    mla13n, cpe13, ecp13⟩ := stepMla_ok h13
  simp only at cp13
  have hlv8 : p8.1.compilation_config.level = CompilationLevel.PIECEWISE := by
    rw [lv8, cp7, cp6, cp5, cp4, eq3, cp2, cp1]
    exact hl
  have hui8 : p8.1.compilation_config.use_inductor =
      c.compilation_config.use_inductor := by
    rw [ui8, cp7, cp6, cp5, cp4, eq3, cp2, cp1]
  have hl9 : p9.1.lora_config = none := by
    rw [lo9, lo8, lo7, lo6, lo5, lo4, eq3, lo2, lo1]
    exact hlo
  obtain ⟨hp10, _⟩ := lo10none hl9
  have hcp : c'.compilation_config = p9.1.compilation_config := by
    rw [cp13, eq12, eq11, hp10]
  refine ⟨?_, ?_, ?_, ?_⟩
  · rw [hcp, lv9, if_pos hlv8]
  · rw [hcp, bk9, if_pos hlv8]
    rfl
  · intro hui
    rw [hcp, co9, if_pos ⟨hlv8, by rw [hui8]; exact hui⟩]
  · intro hui
    rw [hcp, co9, if_neg (by rw [hui8, hui]; simp), co8, cp7, cp6, cp5,
      cp4, eq3, cp2, cp1]

/-- A piecewise-compilation configuration with `use_inductor = true`,
LoRA configured, and the CI flag set in the environment. -/
def cfgPiecewiseLora : VllmConfig :=
  ⟨some mcStd, ccStd, scStd, pcStd,
   ⟨CompilationLevel.PIECEWISE, "", ["all"], [], [], true⟩, some (),
   ⟨"cpu"⟩⟩

/-- The CI environment: `VLLM_CPU_CI_ENV = "1"`. -/
def envCi : Env := ⟨false, none, some "1", "", 8, 8⟩

/-- C9 counterexample: with the CI flag set the selected backend is
`"eager"`, yet `custom_ops` is still restricted to `["none"]` because the
`use_inductor` flag is set — the restriction does not track the backend in
use; and with LoRA configured the final level is `NO_COMPILATION`, not the
claimed downgrade target. -/
theorem c9_counterexample :
    (resolvedOption envCi cfgPiecewiseLora).map (fun c =>
      (c.compilation_config.level, c.compilation_config.backend,
       c.compilation_config.custom_ops)) =
    some (CompilationLevel.NO_COMPILATION, "eager", ["none"]) := rfl

/-- A piecewise-compilation configuration without LoRA, with
`use_inductor = true`. -/
def cfgPiecewise : VllmConfig :=
  ⟨some mcStd, ccStd, scStd, pcStd,
   ⟨CompilationLevel.PIECEWISE, "", ["all"], [], [], true⟩, none, ⟨"cpu"⟩⟩

/-- Witness for C9 at a concrete configuration (CI flag unset). -/
theorem c9_witness :
    (resolvedOption envStd cfgPiecewise).map (fun c =>
      (c.compilation_config.level, c.compilation_config.backend,
       c.compilation_config.custom_ops)) =
    some (CompilationLevel.DYNAMO_ONCE, "inductor", ["none"]) := by
  obtain ⟨p, hp⟩ := isOkE_exists
    (show isOkE (check_and_update_config envStd cfgPiecewise) = true
      from rfl)
  obtain ⟨ha, hb, hc, _⟩ := c9_piecewise_compilation envStd cfgPiecewise
    rfl rfl p.1 p.2 (by rw [hp])
  unfold resolvedOption
  rw [hp]
  simp [ha, hb, hc rfl, envStd]

/-- Witness for C4 at concrete inputs. -/
theorem c4_witness :
    get_attn_backend_cls (some AttnBackendTag.FLASH_ATTN) 64
      TorchDtype.float32 none 16 true true =
      Except.error AttnRejection.mlaNotSupported ∧
    get_attn_backend_cls none 64 TorchDtype.float32 none 16 false false =
      Except.error AttnRejection.onlySupportsV1 ∧
    get_attn_backend_cls (some AttnBackendTag.FLASH_ATTN) 64
      TorchDtype.float32 none 16 true false =
      Except.ok "vllm.v1.attention.backends.cpu_attn.TorchSDPABackend" :=
  ⟨(c4_attn_backend_rejections (some AttnBackendTag.FLASH_ATTN) 64
      TorchDtype.float32 none 16).1 true,
   (c4_attn_backend_rejections none 64 TorchDtype.float32 none 16).2.1,
   (c4_attn_backend_rejections (some AttnBackendTag.FLASH_ATTN) 64
      TorchDtype.float32 none 16).2.2⟩

/-- Witness for C10 at two calls differing in every irrelevant input. -/
theorem c10_witness :
    get_attn_backend_cls (some AttnBackendTag.TORCH_SDPA) 64
      TorchDtype.float32 none 16 true false =
    get_attn_backend_cls (some AttnBackendTag.TORCH_SDPA) 128
      TorchDtype.bfloat16 (some "fp8_e5m2") 32 true false :=
  c10_attn_backend_noninterference (some AttnBackendTag.TORCH_SDPA)
    true false 64 128 TorchDtype.float32 TorchDtype.bfloat16 none
    (some "fp8_e5m2") 16 32

end VllmCpu
